import Mathlib

/-!
# goenv: environment-variable binding of configuration fields

A shallow embedding of `goenv/goenv.go`.  The package resolves, for one
structure field at a time, the string to assign (`getNewValue`) and coerces
it into the field (`reflectInt`, `reflectFloat`, `reflectString`,
`reflectBool`, `reflectArray`).

Conventions of the embedding.

* A Go `string` is a Lean `String` (valid Unicode text); a Go `rune` is a `Char`.
* An `int64` is an `Int`; the range `-2^63 ≤ n < 2^63` is stated where it matters.
  `uint64` arithmetic inside `strconv.ParseUint` is written with an explicit
  `% 2^64`.
* A `float64` is its IEEE-754 bit pattern (`math.Float64bits`).
* Package-level variables that the code reads are collected in `Settings`
  (the variables of package `structtag`); what the process and the standard
  library supply (the environment, `runtime.GOOS`, the Unicode tables, the
  floating-point digit generation and parser) is collected in `Platform`.
* The package-level variable `PrintDefaultsOutput` is threaded through the
  functions that append to it.
* A run-time panic of package `reflect` (a getter or setter used on a value of
  the wrong kind) is an explicit outcome.
-/

namespace goenv

/-! ## Standard-library values -/

/-- The two errors of package `strconv` (`*NumError` wrapping `ErrSyntax` or
`ErrRange`). -/
inductive NumError where
  | ErrSyntax
  | ErrRange
  deriving DecidableEq, Repr

/-- A `float64`, given by its 64 bits as returned by `math.Float64bits`. -/
structure Float64 where
  bits : Nat
  deriving DecidableEq, Repr

/-- The digits produced for a floating-point value (`strconv.decimalSlice`):
the decimal digits `d` (as characters, `nd = d.length`) and the position `dp`
of the decimal point. -/
structure decimalSlice where
  d : List Char
  dp : Int
  deriving DecidableEq, Repr

/-- What the process and the Go standard library supply to the package. -/
structure Platform where
  /-- The value of `runtime.GOOS`. -/
  GOOS : String
  /-- The function `os.LookupEnv`: `none` when the variable is not set. -/
  LookupEnv : String → Option String
  /-- The table behind `unicode.ToUpper`, used for runes above `MaxASCII`. -/
  upperTable : Char → Char
  /-- The table behind `unicode.ToLower`, used for runes above `MaxASCII`. -/
  lowerTable : Char → Char
  /-- The table behind `strconv.IsPrint`, used for runes above `0xFF`. -/
  printTable : Char → Bool
  /-- The digit generation `strconv.ryuFtoaShortest` for a non-zero mantissa
  `mant` and binary exponent `exp` (the value is `mant * 2^exp`). -/
  shortestDigits : Nat → Int → decimalSlice
  /-- The function `strconv.ParseFloat(s, 64)`: the value and the error. -/
  ParseFloat : String → Float64 × Option NumError

/-! ## Package `unicode` and package `strings` -/

/-- The function `unicode.ToUpper`: ASCII letters directly, other runes by the table. -/
def unicodeToUpper (rt : Platform) (r : Char) : Char :=
  if r.toNat ≤ 0x7F then
    if 'a' ≤ r ∧ r ≤ 'z' then Char.ofNat (r.toNat - ('a'.toNat - 'A'.toNat)) else r
  else rt.upperTable r

/-- The function `unicode.ToLower`: ASCII letters directly, other runes by the table. -/
def unicodeToLower (rt : Platform) (r : Char) : Char :=
  if r.toNat ≤ 0x7F then
    if 'A' ≤ r ∧ r ≤ 'Z' then Char.ofNat (r.toNat + ('a'.toNat - 'A'.toNat)) else r
  else rt.lowerTable r

/-- The function `strings.ToUpper`: every rune mapped by `unicode.ToUpper`. -/
def stringsToUpper (rt : Platform) (s : String) : String :=
  String.mk (s.data.map (unicodeToUpper rt))

/-- The function `strings.ToLower`: every rune mapped by `unicode.ToLower`. -/
def stringsToLower (rt : Platform) (s : String) : String :=
  String.mk (s.data.map (unicodeToLower rt))

/-- The call `strings.Replace(s, "-", "_", -1)`: every dash becomes an underscore. -/
def stringsReplaceDash (s : String) : String :=
  String.mk (s.data.map (fun c => if c = '-' then '_' else c))

/-! ## Package `strconv`: booleans and integers -/

/-- The function `strconv.FormatBool`. -/
def FormatBool (b : Bool) : String :=
  if b then "true" else "false"

/-- The decimal digit character of `d < 10` (`'0' + d`). -/
def digitChar (d : Nat) : Char :=
  Char.ofNat ('0'.toNat + d)

/-- The digit loop of `strconv.formatBits` in base 10: the digits of `u` are
written from the least significant one, in front of `acc`. -/
def formatBitsLoop : Nat → Nat → List Char → List Char
  | 0, _, acc => acc
  | fuel + 1, u, acc =>
    if u < 10 then digitChar u :: acc
    else formatBitsLoop fuel (u / 10) (digitChar (u % 10) :: acc)

/-- The decimal digits of an unsigned number (`strconv.formatBits`, base 10);
the loop runs once per digit, so `u + 1` rounds are always enough. -/
def formatBits (u : Nat) : List Char :=
  formatBitsLoop (u + 1) u []

/-- The call `strconv.FormatInt(i, 10)`: a minus sign for a negative number,
then the decimal digits of the magnitude. -/
def FormatInt (i : Int) : String :=
  if i < 0 then String.mk ('-' :: formatBits i.natAbs) else String.mk (formatBits i.toNat)

/-- The largest `uint64`. -/
def maxUint64 : Nat := 2 ^ 64 - 1

/-- The digit scan of `strconv.ParseUint(s, 10, 64)`, from the accumulated
value `n`: a byte that is not a decimal digit is a syntax error, a value that
does not fit 64 bits is a range error (with the largest value returned). -/
def parseUintLoop : List Char → Nat → Nat × Option NumError
  | [], n => (n, none)
  | c :: cs, n =>
    if '0' ≤ c ∧ c ≤ '9' then
      let d := c.toNat - '0'.toNat
      if n ≥ maxUint64 / 10 + 1 then (maxUint64, some NumError.ErrRange)
      else
        let n10 := n * 10
        let n1 := (n10 + d) % 2 ^ 64
        if n1 < n10 ∨ n1 > maxUint64 then (maxUint64, some NumError.ErrRange)
        else parseUintLoop cs n1
    else (0, some NumError.ErrSyntax)

/-- The call `strconv.ParseUint(s, 10, 64)` on the characters of `s`. -/
def ParseUint (s : List Char) : Nat × Option NumError :=
  if s = [] then (0, some NumError.ErrSyntax) else parseUintLoop s 0

/-- The sign and range handling of `strconv.ParseInt(s, 10, 64)` once the
leading sign is picked off: `neg` is the sign, `s` the rest. -/
def parseIntSigned (neg : Bool) (s : List Char) : Int × Option NumError :=
  match ParseUint s with
  | (_, some NumError.ErrSyntax) => (0, some NumError.ErrSyntax)
  | (un, _) =>
    let cutoff : Nat := 2 ^ 63
    if !neg ∧ un ≥ cutoff then ((cutoff : Int) - 1, some NumError.ErrRange)
    else if neg ∧ un > cutoff then (-(cutoff : Int), some NumError.ErrRange)
    else if neg then (-(un : Int), none) else ((un : Int), none)

/-- The call `strconv.ParseInt(s, 10, 64)`: the value and the error (`none` is `nil`). -/
def ParseInt (s : String) : Int × Option NumError :=
  match s.data with
  | [] => (0, some NumError.ErrSyntax)
  | c :: rest =>
    if c = '+' then parseIntSigned false rest
    else if c = '-' then parseIntSigned true rest
    else parseIntSigned false (c :: rest)

/-! ## Package `strconv`: quoting (the verb `%q` of package `fmt`) -/

/-- The function `strconv.IsPrint`: decided directly for Latin-1, by the
table for the other runes. -/
def IsPrint (rt : Platform) (r : Char) : Bool :=
  if r.toNat ≤ 0xFF then
    if 0x20 ≤ r.toNat ∧ r.toNat ≤ 0x7E then true
    else if 0xA1 ≤ r.toNat ∧ r.toNat ≤ 0xFF then r.toNat ≠ 0xAD
    else false
  else rt.printTable r

/-- The hexadecimal digit `lowerhex[n]` of `n < 16`. -/
def lowerhex (n : Nat) : Char :=
  "0123456789abcdef".data.getD n '0'

/-- The function `strconv.appendEscapedRune` for the double quote, without
the ASCII-only and graphic-only modes: the characters written for one rune. -/
def appendEscapedRune (rt : Platform) (r : Char) : List Char :=
  if r = '"' ∨ r = '\\' then ['\\', r]
  else if IsPrint rt r then [r]
  else if r.toNat = 7 then ['\\', 'a']
  else if r.toNat = 8 then ['\\', 'b']
  else if r.toNat = 12 then ['\\', 'f']
  else if r = '\n' then ['\\', 'n']
  else if r = '\r' then ['\\', 'r']
  else if r = '\t' then ['\\', 't']
  else if r.toNat = 11 then ['\\', 'v']
  else if r.toNat < 0x20 ∨ r.toNat = 0x7F then
    ['\\', 'x', lowerhex (r.toNat / 16 % 16), lowerhex (r.toNat % 16)]
  else if r.toNat < 0x10000 then
    '\\' :: 'u' :: [12, 8, 4, 0].map (fun s => lowerhex (r.toNat / 2 ^ s % 16))
  else
    '\\' :: 'U' :: [28, 24, 20, 16, 12, 8, 4, 0].map (fun s => lowerhex (r.toNat / 2 ^ s % 16))

/-- The function `strconv.Quote`, which formats the verb `%q`: the string in
double quotes, every rune escaped as Go syntax requires. -/
def Quote (rt : Platform) (s : String) : String :=
  String.mk ('"' :: (s.data.map (appendEscapedRune rt)).flatten ++ ['"'])

/-! ## Package `strconv`: floating point -/

/-- The sign bit of a `float64` (`bits >> 63 != 0`). -/
def Float64.neg (f : Float64) : Bool :=
  f.bits / 2 ^ 63 % 2 ≠ 0

/-- The biased exponent of a `float64` (`bits >> 52 & 0x7FF`). -/
def Float64.exp (f : Float64) : Nat :=
  f.bits / 2 ^ 52 % 2048

/-- The mantissa bits of a `float64` (`bits & (1<<52 - 1)`). -/
def Float64.mant (f : Float64) : Nat :=
  f.bits % 2 ^ 52

/-- A `float64` that compares equal to zero: `+0` or `-0`. -/
def Float64.isZero (f : Float64) : Bool :=
  f.exp = 0 ∧ f.mant = 0

/-- The function `strconv.ryuFtoaShortest`: no digits for a zero mantissa,
the platform's shortest digits otherwise. -/
def ryuFtoaShortest (rt : Platform) (mant : Nat) (exp : Int) : decimalSlice :=
  if mant = 0 then ⟨[], 0⟩ else rt.shortestDigits mant exp

/-- The function `strconv.fmtF` (format `%f`): sign, integer part padded with
zeros, then `prec` digits of fraction. -/
def fmtF (neg : Bool) (d : decimalSlice) (prec : Nat) : List Char :=
  let sign := if neg then ['-'] else []
  let integer :=
    if d.dp > 0 then
      let m := min d.d.length d.dp.toNat
      d.d.take m ++ List.replicate (d.dp.toNat - m) '0'
    else ['0']
  let fraction :=
    if prec > 0 then
      '.' :: (List.range prec).map (fun i =>
        let j := d.dp + (i : Int)
        if 0 ≤ j ∧ j < (d.d.length : Int) then d.d.getD j.toNat '0' else '0')
    else []
  sign ++ integer ++ fraction

/-- The shortest digits of a finite `float64` as `genericFtoa` obtains them:
a denormal has exponent 1 and no implicit bit, every other value gets the
implicit top bit; the exponent is unbiased and counts from the last
mantissa bit. -/
def shortestOf (rt : Platform) (f : Float64) : decimalSlice :=
  let exp : Int := if f.exp = 0 then 1 else f.exp
  let mant : Nat := if f.exp = 0 then f.mant else f.mant + 2 ^ 52
  ryuFtoaShortest rt mant (exp - 1023 - 52)

/-- The call `strconv.FormatFloat(f, 'f', -1, 64)` (`genericFtoa`): the
special values by name, every other value by its shortest digits in format
`%f` with as many fraction digits as the digits need. -/
def FormatFloat (rt : Platform) (f : Float64) : String :=
  if f.exp = 2047 then
    if f.mant ≠ 0 then "NaN" else if f.neg then "-Inf" else "+Inf"
  else
    let digs := shortestOf rt f
    let prec := ((digs.d.length : Int) - digs.dp).toNat
    String.mk (fmtF f.neg digs prec)

/-- The digits start with a digit other than `'0'`, as the digits of a
non-zero number do. -/
def decimalSlice.startsNonzero (d : decimalSlice) : Bool :=
  match d.d with
  | [] => false
  | c :: _ => decide (c ≠ '0')

/-! ## Package `reflect` -/

/-- The contents of a field, by kind.  `Int` stands for the 64-bit signed
kinds (`reflect.Int64`, and `reflect.Int` on a 64-bit target); `Other` is a
value of any other kind (an array, a slice), whose contents the package never
inspects. -/
inductive Payload where
  | Bool (b : Bool)
  | Int (i : Int)
  | Float (f : Float64)
  | String (s : String)
  | Other (contents : String)
  deriving DecidableEq, Repr

/-- A `reflect.Value` of an addressable structure field: the name of its type
(`v.Type().String()`) and its contents. -/
structure Value where
  typ : String
  val : Payload
  deriving DecidableEq, Repr

/-- The Go type `bool`. -/
abbrev bool := Bool

/-- The Go type `int64`. -/
abbrev int64 := Int

/-- The Go type `string`. -/
abbrev string := String

/-- The method `Value.Bool`; `none` is the panic on a value of another kind. -/
def Value.Bool (v : Value) : Option bool :=
  match v.val with
  | Payload.Bool b => some b
  | _ => none

/-- The method `Value.Int`; `none` is the panic on a value of another kind. -/
def Value.Int (v : Value) : Option int64 :=
  match v.val with
  | Payload.Int i => some i
  | _ => none

/-- The method `Value.Float`; `none` is the panic on a value of another kind. -/
def Value.Float (v : Value) : Option Float64 :=
  match v.val with
  | Payload.Float f => some f
  | _ => none

/-- The method `Value.String`: it never panics, and on a value that is not a
string it returns the text `<T Value>` for the type `T`. -/
def Value.String (v : Value) : string :=
  match v.val with
  | Payload.String s => s
  | _ => "<" ++ v.typ ++ " Value>"

/-- The method `Value.SetBool`; `none` is the panic on a value of another kind. -/
def Value.SetBool (v : Value) (x : bool) : Option Value :=
  match v.val with
  | Payload.Bool _ => some ⟨v.typ, Payload.Bool x⟩
  | _ => none

/-- The method `Value.SetInt`; `none` is the panic on a value of another kind. -/
def Value.SetInt (v : Value) (x : int64) : Option Value :=
  match v.val with
  | Payload.Int _ => some ⟨v.typ, Payload.Int x⟩
  | _ => none

/-- The method `Value.SetFloat`; `none` is the panic on a value of another kind. -/
def Value.SetFloat (v : Value) (x : Float64) : Option Value :=
  match v.val with
  | Payload.Float _ => some ⟨v.typ, Payload.Float x⟩
  | _ => none

/-- The method `Value.SetString`; `none` is the panic on a value of another kind. -/
def Value.SetString (v : Value) (x : string) : Option Value :=
  match v.val with
  | Payload.String _ => some ⟨v.typ, Payload.String x⟩
  | _ => none

/-- A `reflect.StructField`, reduced to its tag: the key/value pairs of the
tag string, in the order they are written. -/
structure StructField where
  Tag : List (String × String)
  deriving DecidableEq, Repr

/-- The method `StructTag.Get`: the value of the first pair with the given
key, the empty string when there is none. -/
def StructField.TagGet (field : StructField) (key : String) : String :=
  match field.Tag.find? (fun kv => kv.1 = key) with
  | some kv => kv.2
  | none => ""

/-! ## Package `goenv` -/

/-- The package-level variables of `structtag` that `Setup` assigns and the
resolution reads. -/
structure Settings where
  /-- The variable `structtag.Tag`: the tag key naming the environment variable. -/
  Tag : String
  /-- The variable `structtag.TagDefault`: the tag key holding the default. -/
  TagDefault : String
  /-- The variable `structtag.KebabCfgToSnakeEnv`: replace dashes by underscores. -/
  KebabCfgToSnakeEnv : Bool
  deriving DecidableEq, Repr

/-- The function `Setup`, as far as the settings go: `SetTag`,
`SetTagDefault` and `SetKebabCfgToSnakeEnv`. -/
def Setup (tag : String) (tagDefault : String) (kebabCfgToSnakeEnv : Bool) : Settings :=
  ⟨tag, tagDefault, kebabCfgToSnakeEnv⟩

/-- What `getNewValue` leaves behind: the returned string (`none` when the
call panicked) and the help buffer `PrintDefaultsOutput` after the call. -/
structure Resolved where
  ret : Option String
  PrintDefaultsOutput : String
  deriving DecidableEq, Repr

/-- How a coercion call ended: it returned `err` (`none` is `nil`), or it panicked. -/
inductive Outcome where
  | returned (err : Option NumError)
  | panicked
  deriving DecidableEq, Repr

/-- What a coercion call leaves behind: how it ended, the field after the
call, and the help buffer `PrintDefaultsOutput` after the call. -/
structure Coerced where
  outcome : Outcome
  value : Value
  PrintDefaultsOutput : String
  deriving DecidableEq, Repr

/-- The function `parseValue`: the text of the current value and whether it
counts as present; `none` is the panic of a getter on a value of another kind. -/
def parseValue (rt : Platform) (datatype : String) (value : Value) : Option (String × Bool) :=
  if datatype = "bool" then
    match value.Bool with
    | none => none
    | some b => some (FormatBool b, true)
  else if datatype = "string" then
    let ret := value.String
    some (ret, decide (ret ≠ ""))
  else if datatype = "int" then
    match value.Int with
    | none => none
    | some i =>
      let ret := FormatInt i
      some (ret, decide (ret ≠ "0"))
  else if datatype = "float64" then
    match value.Float with
    | none => none
    | some f =>
      let ret := FormatFloat rt f
      some (ret, decide (ret ≠ "0"))
  else some ("", false)

/-- The function `getNewValue`: the stanza for the field is appended to the
help buffer, then the environment variable, the current value and the
default are consulted in this order. -/
def getNewValue (rt : Platform) (cfg : Settings) (field : StructField) (value : Value)
    (tag : String) (datatype : String) (PrintDefaultsOutput : String) : Resolved :=
  let defaultValue := field.TagGet cfg.TagDefault
  let tag := stringsToUpper rt tag
  let tag := if cfg.KebabCfgToSnakeEnv then stringsReplaceDash tag else tag
  let sysvar := if rt.GOOS = "windows" then "%" ++ tag ++ "%" else "$" ++ tag
  let output :=
    if defaultValue ≠ "" then
      "  " ++ sysvar ++ " " ++ datatype ++ "\n\t(default " ++ Quote rt defaultValue ++ ")\n"
    else "  " ++ sysvar ++ " " ++ datatype ++ "\n\n"
  let PrintDefaultsOutput := PrintDefaultsOutput ++ output
  match rt.LookupEnv tag with
  | some ret => ⟨some ret, PrintDefaultsOutput⟩
  | none =>
    match parseValue rt datatype value with
    | none => ⟨none, PrintDefaultsOutput⟩
    | some (ret, true) => ⟨some ret, PrintDefaultsOutput⟩
    | some (_, false) => ⟨some defaultValue, PrintDefaultsOutput⟩

/-- The function `reflectInt`. -/
def reflectInt (rt : Platform) (cfg : Settings) (field : StructField) (value : Value)
    (tag : String) (PrintDefaultsOutput : String) : Coerced :=
  let r := getNewValue rt cfg field value tag "int" PrintDefaultsOutput
  match r.ret with
  | none => ⟨Outcome.panicked, value, r.PrintDefaultsOutput⟩
  | some newValue =>
    if newValue = "" then ⟨Outcome.returned none, value, r.PrintDefaultsOutput⟩
    else
      match ParseInt newValue with
      | (_, some err) => ⟨Outcome.returned (some err), value, r.PrintDefaultsOutput⟩
      | (intNewValue, none) =>
        match value.SetInt intNewValue with
        | none => ⟨Outcome.panicked, value, r.PrintDefaultsOutput⟩
        | some v => ⟨Outcome.returned none, v, r.PrintDefaultsOutput⟩

/-- The function `reflectFloat`. -/
def reflectFloat (rt : Platform) (cfg : Settings) (field : StructField) (value : Value)
    (tag : String) (PrintDefaultsOutput : String) : Coerced :=
  let r := getNewValue rt cfg field value tag "float64" PrintDefaultsOutput
  match r.ret with
  | none => ⟨Outcome.panicked, value, r.PrintDefaultsOutput⟩
  | some newValue =>
    if newValue = "" then ⟨Outcome.returned none, value, r.PrintDefaultsOutput⟩
    else
      match rt.ParseFloat newValue with
      | (_, some err) => ⟨Outcome.returned (some err), value, r.PrintDefaultsOutput⟩
      | (floatNewValue, none) =>
        match value.SetFloat floatNewValue with
        | none => ⟨Outcome.panicked, value, r.PrintDefaultsOutput⟩
        | some v => ⟨Outcome.returned none, v, r.PrintDefaultsOutput⟩

/-- The function `reflectString`. -/
def reflectString (rt : Platform) (cfg : Settings) (field : StructField) (value : Value)
    (tag : String) (PrintDefaultsOutput : String) : Coerced :=
  let r := getNewValue rt cfg field value tag "string" PrintDefaultsOutput
  match r.ret with
  | none => ⟨Outcome.panicked, value, r.PrintDefaultsOutput⟩
  | some newValue =>
    if newValue = "" then ⟨Outcome.returned none, value, r.PrintDefaultsOutput⟩
    else
      match value.SetString newValue with
      | none => ⟨Outcome.panicked, value, r.PrintDefaultsOutput⟩
      | some v => ⟨Outcome.returned none, v, r.PrintDefaultsOutput⟩

/-- The function `reflectBool`. -/
def reflectBool (rt : Platform) (cfg : Settings) (field : StructField) (value : Value)
    (tag : String) (PrintDefaultsOutput : String) : Coerced :=
  let r := getNewValue rt cfg field value tag "bool" PrintDefaultsOutput
  match r.ret with
  | none => ⟨Outcome.panicked, value, r.PrintDefaultsOutput⟩
  | some newValue =>
    if newValue = "" then ⟨Outcome.returned none, value, r.PrintDefaultsOutput⟩
    else
      let newValue := stringsToLower rt newValue
      let newBoolValue := decide (newValue = "true" ∨ newValue = "t" ∨ newValue = "1")
      match value.SetBool newBoolValue with
      | none => ⟨Outcome.panicked, value, r.PrintDefaultsOutput⟩
      | some v => ⟨Outcome.returned none, v, r.PrintDefaultsOutput⟩

/-- The function `reflectArray`: not implemented, it returns at once. -/
def reflectArray (_rt : Platform) (_cfg : Settings) (_field : StructField) (value : Value)
    (_tag : String) (PrintDefaultsOutput : String) : Coerced :=
  ⟨Outcome.returned none, value, PrintDefaultsOutput⟩

/-- The kinds of package `reflect` for which `Setup` registers a callback. -/
inductive Kind where
  | Int64
  | Int
  | Float64
  | String
  | Bool
  | Array
  | Slice
  deriving DecidableEq, Repr

/-- The type of a callback of `structtag.ParseMap` (`structtag.ReflectFunc`),
with the platform, the settings and the help buffer passed explicitly. -/
abbrev ReflectFunc : Type :=
  Platform → Settings → StructField → Value → string → string → Coerced

/-- The entries that `Setup` writes into `structtag.ParseMap`: the callback
registered for each kind. -/
def ParseMap : Kind → ReflectFunc
  | Kind.Int64 => reflectInt
  | Kind.Int => reflectInt
  | Kind.Float64 => reflectFloat
  | Kind.String => reflectString
  | Kind.Bool => reflectBool
  | Kind.Array => reflectArray
  | Kind.Slice => reflectArray

/-! ## A concrete platform, for evaluating the functions on examples -/

/-- The exact decimal expansion of `mant * 2^exp`, without trailing zeros.
It is the shortest round-trip form for the values used in the examples
(`1.5`, `0.25`, small integers). -/
def exactDigits (mant : Nat) (exp : Int) : decimalSlice :=
  let n := if exp ≥ 0 then mant * 2 ^ exp.toNat else mant * 5 ^ (-exp).toNat
  let ds := formatBits n
  let dp : Int := (ds.length : Int) - (if exp ≥ 0 then 0 else -exp)
  ⟨(ds.reverse.dropWhile (fun c => c = '0')).reverse, dp⟩

/-- A parser that knows a few floating-point literals and rejects every other
string; enough for the examples. -/
def exampleParseFloat (s : String) : Float64 × Option NumError :=
  if s = "0" then (⟨0⟩, none)
  else if s = "-0" then (⟨2 ^ 63⟩, none)
  else if s = "1" then (⟨0x3FF0000000000000⟩, none)
  else if s = "1.5" then (⟨0x3FF8000000000000⟩, none)
  else if s = "0.25" then (⟨0x3FD0000000000000⟩, none)
  else (⟨0⟩, some NumError.ErrSyntax)

/-- An environment given by a list of `NAME=value` pairs: the first pair
with the name decides, and the empty name is never set. -/
def lookupIn (environ : List (String × String)) (key : String) : Option String :=
  if key = "" then none
  else (environ.find? (fun kv => kv.1 = key)).map (fun kv => kv.2)

/-- A platform for examples: the given operating system and environment,
ASCII-only case tables, every rune above Latin-1 printable. -/
def examplePlatform (goos : String) (environ : List (String × String)) : Platform :=
  ⟨goos, lookupIn environ, fun r => r, fun r => r, fun _ => true, exactDigits, exampleParseFloat⟩

/-- The platform with another environment, everything else kept. -/
def Platform.withEnv (rt : Platform) (env : String → Option String) : Platform :=
  ⟨rt.GOOS, env, rt.upperTable, rt.lowerTable, rt.printTable, rt.shortestDigits, rt.ParseFloat⟩

/-! ## Notions of the specification -/

/-- The name of the environment variable of a tag, in the words of the
specification: the tag in upper case, with every dash replaced by an
underscore when the normalisation flag is on. -/
def specEnvName (rt : Platform) (cfg : Settings) (tag : String) : String :=
  if cfg.KebabCfgToSnakeEnv then stringsReplaceDash (stringsToUpper rt tag)
  else stringsToUpper rt tag

/-- One stanza of the help text, in the words of the specification: the
variable with the marker of the platform, the declared type and, when there
is a default, the quoted default. -/
def specHelpStanza (rt : Platform) (name : String) (datatype : String) (defaultValue : String) :
    String :=
  let marker := if rt.GOOS = "windows" then "%" ++ name ++ "%" else "$" ++ name
  if defaultValue = "" then "  " ++ marker ++ " " ++ datatype ++ "\n\n"
  else "  " ++ marker ++ " " ++ datatype ++ "\n\t(default " ++ Quote rt defaultValue ++ ")\n"

/-- The number written by a run of decimal digits. -/
def specDecimalValue (ds : List Char) : Nat :=
  ds.foldl (fun n c => n * 10 + (c.toNat - '0'.toNat)) 0

/-- The text of a base-10 signed 64-bit integer, in the words of the
specification: an optional sign, then at least one decimal digit and nothing
else, the number lying between `-2^63` and `2^63 - 1`. -/
def specIsBase10Int64 (s : String) : Bool :=
  match s.data with
  | [] => false
  | c :: rest =>
    let digits := if c = '+' ∨ c = '-' then rest else c :: rest
    decide (digits ≠ [] ∧ (∀ x ∈ digits, '0' ≤ x ∧ x ≤ '9') ∧
      (if c = '-' then specDecimalValue digits ≤ 2 ^ 63 else specDecimalValue digits < 2 ^ 63))

/-- The four coercion callbacks that resolve a value. -/
inductive Coercer where
  | Int
  | Float
  | String
  | Bool
  deriving DecidableEq, Repr

/-- The declared type that a callback passes to `getNewValue`. -/
def Coercer.datatype : Coercer → string
  | Coercer.Int => "int"
  | Coercer.Float => "float64"
  | Coercer.String => "string"
  | Coercer.Bool => "bool"

/-- The call of one of the four callbacks. -/
def Coercer.call (c : Coercer) (rt : Platform) (cfg : Settings) (field : StructField)
    (value : Value) (tag : string) (PrintDefaultsOutput : string) : Coerced :=
  match c with
  | Coercer.Int => reflectInt rt cfg field value tag PrintDefaultsOutput
  | Coercer.Float => reflectFloat rt cfg field value tag PrintDefaultsOutput
  | Coercer.String => reflectString rt cfg field value tag PrintDefaultsOutput
  | Coercer.Bool => reflectBool rt cfg field value tag PrintDefaultsOutput

/-- One field to resolve: the callback of its kind, the field, its value, its tag. -/
structure FieldCall where
  coercer : Coercer
  field : StructField
  value : Value
  tag : string
  deriving DecidableEq, Repr

/-- The help buffer after the fields of `calls` were resolved one after the
other, starting from the buffer `PrintDefaultsOutput`. -/
def resolveAll (rt : Platform) (cfg : Settings) (calls : List FieldCall)
    (PrintDefaultsOutput : string) : string :=
  calls.foldl (fun out c => (c.coercer.call rt cfg c.field c.value c.tag out).PrintDefaultsOutput)
    PrintDefaultsOutput

/-- Two calls of a callback in a row on the same field: the second call finds
the field and the help buffer as the first call left them. -/
def callTwice (f : ReflectFunc) (rt : Platform) (cfg : Settings) (field : StructField)
    (value : Value) (tag : string) (PrintDefaultsOutput : string) : Coerced :=
  let first := f rt cfg field value tag PrintDefaultsOutput
  f rt cfg field first.value tag first.PrintDefaultsOutput

/-! ## Resolution: auxiliary facts -/

/-- The string returned by `getNewValue` when the variable is set. -/
theorem getNewValue_ret_of_env (rt : Platform) (cfg : Settings) (field : StructField)
    (value : Value) (tag datatype out v : String)
    (h : rt.LookupEnv (specEnvName rt cfg tag) = some v) :
    (getNewValue rt cfg field value tag datatype out).ret = some v := by
  unfold specEnvName at h
  unfold getNewValue
  simp only [h]

/-- The string returned by `getNewValue` when the variable is not set. -/
theorem getNewValue_ret_of_unset (rt : Platform) (cfg : Settings) (field : StructField)
    (value : Value) (tag datatype out : String)
    (h : rt.LookupEnv (specEnvName rt cfg tag) = none) :
    (getNewValue rt cfg field value tag datatype out).ret =
      match parseValue rt datatype value with
      | none => none
      | some (ret, true) => some ret
      | some (_, false) => some (field.TagGet cfg.TagDefault) := by
  unfold specEnvName at h
  unfold getNewValue
  simp only [h]
  split <;> rfl

/-- The help buffer after `getNewValue`: one stanza appended. -/
theorem getNewValue_buffer (rt : Platform) (cfg : Settings) (field : StructField)
    (value : Value) (tag datatype out : String) :
    (getNewValue rt cfg field value tag datatype out).PrintDefaultsOutput =
      out ++ specHelpStanza rt (specEnvName rt cfg tag) datatype (field.TagGet cfg.TagDefault) := by
  unfold getNewValue specHelpStanza specEnvName
  by_cases hd : field.TagGet cfg.TagDefault = ""
  · simp only [hd, ne_eq, not_true_eq_false, if_false, if_true]
    split
    · rfl
    · split <;> rfl
  · simp only [hd, ne_eq, not_false_eq_true, if_false, if_true]
    split
    · rfl
    · split <;> rfl

/-! ## Decimal text of integers: auxiliary facts -/

/-- A string built from a list differs from a literal when the lists differ. -/
theorem mk_ne_of_data_ne {l : List Char} {s : String} (h : l ≠ s.data) : String.mk l ≠ s := by
  intro e
  apply h
  rw [← e]

/-- The digit characters are the ten characters from `'0'` to `'9'`. -/
theorem digitChar_spec (d : Nat) (hd : d < 10) :
    '0' ≤ digitChar d ∧ digitChar d ≤ '9' ∧ (digitChar d).toNat - '0'.toNat = d ∧
      digitChar d ≠ '+' ∧ digitChar d ≠ '-' ∧ (d ≠ 0 → digitChar d ≠ '0') := by
  interval_cases d <;> decide

/-- The digit loop writes a digit first, and not `'0'` for a positive number. -/
theorem formatBitsLoop_head (fuel : Nat) : ∀ (u : Nat) (acc : List Char), u < fuel →
    ∃ d rest, d < 10 ∧ formatBitsLoop fuel u acc = digitChar d :: rest ∧ (0 < u → d ≠ 0) := by
  induction fuel with
  | zero => intro u acc h; omega
  | succ fuel ih =>
    intro u acc h
    unfold formatBitsLoop
    by_cases h10 : u < 10
    · rw [if_pos h10]
      exact ⟨u, acc, h10, rfl, fun h0 => by omega⟩
    · rw [if_neg h10]
      obtain ⟨d, rest, hd, he, hz⟩ := ih (u / 10) (digitChar (u % 10) :: acc) (by omega)
      exact ⟨d, rest, hd, he, fun _ => hz (by omega)⟩

/-- Reading back what the digit loop wrote: the scan of the digits of `u`
followed by `acc` continues on `acc` from the value `u`. -/
theorem parseUintLoop_formatBitsLoop (fuel : Nat) : ∀ (u : Nat) (acc : List Char), u < fuel →
    u ≤ maxUint64 →
    parseUintLoop (formatBitsLoop fuel u acc) 0 = parseUintLoop acc u := by
  induction fuel with
  | zero => intro u acc h; omega
  | succ fuel ih =>
    intro u acc h hmax
    unfold formatBitsLoop
    have hm : maxUint64 = 18446744073709551615 := by decide
    by_cases h10 : u < 10
    · rw [if_pos h10]
      obtain ⟨h0, h9, hv, -⟩ := digitChar_spec u h10
      rw [parseUintLoop]
      simp only [h0, h9, and_self, if_true, hv, hm]
      have h1 : ¬ (0 ≥ 18446744073709551615 / 10 + 1) := by omega
      have h2 : (0 * 10 + u) % 2 ^ 64 = u := by omega
      simp only [h1, if_false, h2]
      have h3 : ¬ (u < 0 * 10 ∨ u > 18446744073709551615) := by omega
      simp only [h3, if_false]
    · rw [if_neg h10]
      rw [ih (u / 10) _ (by omega) (by omega)]
      obtain ⟨h0, h9, hv, -⟩ := digitChar_spec (u % 10) (by omega)
      rw [parseUintLoop]
      simp only [h0, h9, and_self, if_true, hv, hm]
      have h1 : ¬ (u / 10 ≥ 18446744073709551615 / 10 + 1) := by omega
      have h2 : (u / 10 * 10 + u % 10) % 2 ^ 64 = u := by omega
      simp only [h1, if_false, h2]
      have h3 : ¬ (u < u / 10 * 10 ∨ u > 18446744073709551615) := by omega
      simp only [h3, if_false]

/-- The unsigned parser reads the digits of `u` back as `u`. -/
theorem ParseUint_formatBits (u : Nat) (hmax : u ≤ maxUint64) :
    ParseUint (formatBits u) = (u, none) := by
  unfold ParseUint formatBits
  obtain ⟨d, rest, -, he, -⟩ := formatBitsLoop_head (u + 1) u [] (by omega)
  have hne : formatBitsLoop (u + 1) u [] ≠ [] := by rw [he]; exact List.cons_ne_nil _ _
  rw [if_neg hne, parseUintLoop_formatBitsLoop (u + 1) u [] (by omega) hmax]
  rfl

/-- The decimal text of a non-zero integer is not `"0"`. -/
theorem FormatInt_ne_zero (i : Int) (hi : i ≠ 0) : FormatInt i ≠ "0" := by
  unfold FormatInt
  by_cases hneg : i < 0
  · rw [if_pos hneg]
    apply mk_ne_of_data_ne
    intro e
    have := (List.cons.inj e).1
    exact absurd this (by decide)
  · rw [if_neg hneg]
    apply mk_ne_of_data_ne
    obtain ⟨d, rest, hd, he, hz⟩ := formatBitsLoop_head (i.toNat + 1) i.toNat [] (by omega)
    unfold formatBits
    rw [he]
    intro e
    have h0 := (List.cons.inj e).1
    exact (digitChar_spec d hd).2.2.2.2.2 (hz (by omega)) h0

/-- Formatting a signed 64-bit integer in base 10 and parsing it back gives
the integer, without error. -/
theorem ParseInt_FormatInt (n : Int) (hlo : -2 ^ 63 ≤ n) (hhi : n < 2 ^ 63) :
    ParseInt (FormatInt n) = (n, none) := by
  have hm : maxUint64 = 18446744073709551615 := by decide
  unfold FormatInt
  by_cases hneg : n < 0
  · rw [if_pos hneg]
    unfold ParseInt
    simp only [show ('-' : Char) ≠ '+' by decide, if_false, if_true]
    unfold parseIntSigned
    rw [ParseUint_formatBits _ (by rw [hm]; omega)]
    have h1 : ¬ (9223372036854775808 < n.natAbs) := by omega
    simp [h1, abs_of_neg hneg]
  · rw [if_neg hneg]
    unfold ParseInt
    obtain ⟨d, rest, hd, he, -⟩ := formatBitsLoop_head (n.toNat + 1) n.toNat [] (by omega)
    have he2 : formatBits n.toNat = digitChar d :: rest := he
    obtain ⟨-, -, -, hp, hmn, -⟩ := digitChar_spec d hd
    simp only [he2, hp, hmn, if_false]
    rw [← he2]
    unfold parseIntSigned
    rw [ParseUint_formatBits _ (by rw [hm]; omega)]
    have h1 : ¬ (9223372036854775808 ≤ n.toNat) := by omega
    simp [h1]
    omega

/-! ## The integer parser against the specification of integer text -/

/-- The number scanned so far only grows. -/
theorem foldl_digits_ge (cs : List Char) : ∀ n : Nat,
    n ≤ cs.foldl (fun n c => n * 10 + (c.toNat - '0'.toNat)) n := by
  induction cs with
  | nil => intro n; exact Nat.le_refl n
  | cons c cs ih =>
    intro n
    simp only [List.foldl_cons]
    have := ih (n * 10 + (c.toNat - '0'.toNat))
    omega

/-- A decimal digit is worth less than ten. -/
theorem digit_value_lt (c : Char) (h : '0' ≤ c ∧ c ≤ '9') : c.toNat - '0'.toNat < 10 := by
  obtain ⟨-, h9⟩ := h
  have h9n : c.toNat ≤ '9'.toNat := h9
  have e9 : '9'.toNat = 57 := by decide
  have e0 : '0'.toNat = 48 := by decide
  omega

/-- The digit scan on a run of digits whose value fits 64 bits returns the value. -/
theorem parseUintLoop_of_digits (cs : List Char) : ∀ n : Nat,
    (∀ c ∈ cs, '0' ≤ c ∧ c ≤ '9') →
    cs.foldl (fun n c => n * 10 + (c.toNat - '0'.toNat)) n ≤ maxUint64 →
    parseUintLoop cs n = (cs.foldl (fun n c => n * 10 + (c.toNat - '0'.toNat)) n, none) := by
  induction cs with
  | nil => intro n _ _; rfl
  | cons c cs ih =>
    intro n hdig hval
    have hc := hdig c (List.mem_cons_self _ _)
    have hd := digit_value_lt c hc
    simp only [List.foldl_cons] at hval ⊢
    have hge := foldl_digits_ge cs (n * 10 + (c.toNat - '0'.toNat))
    have hm : maxUint64 = 18446744073709551615 := by decide
    rw [hm] at hval
    rw [parseUintLoop]
    simp only [hc, and_self, if_true, hm]
    have h1 : ¬ (n ≥ 18446744073709551615 / 10 + 1) := by omega
    have h2 : (n * 10 + (c.toNat - '0'.toNat)) % 2 ^ 64 = n * 10 + (c.toNat - '0'.toNat) := by
      omega
    simp only [h1, if_false, h2]
    have h3 : ¬ (n * 10 + (c.toNat - '0'.toNat) < n * 10 ∨
        n * 10 + (c.toNat - '0'.toNat) > 18446744073709551615) := by omega
    simp only [h3, if_false]
    exact ih _ (fun x hx => hdig x (List.mem_cons_of_mem _ hx)) (by rw [hm]; exact hval)

/-- The digit scan succeeds only on a run of digits whose value fits 64 bits. -/
theorem digits_of_parseUintLoop (cs : List Char) : ∀ n : Nat,
    (parseUintLoop cs n).2 = none →
    (∀ c ∈ cs, '0' ≤ c ∧ c ≤ '9') ∧
      (n ≤ maxUint64 → cs.foldl (fun n c => n * 10 + (c.toNat - '0'.toNat)) n ≤ maxUint64) := by
  induction cs with
  | nil => intro n _; exact ⟨fun c hc => absurd hc (List.not_mem_nil c), fun h => h⟩
  | cons c cs ih =>
    intro n h
    have hm : maxUint64 = 18446744073709551615 := by decide
    rw [parseUintLoop] at h
    by_cases hc : '0' ≤ c ∧ c ≤ '9'
    · have hd := digit_value_lt c hc
      have e0 : '0'.toNat = 48 := by decide
      simp only [hc, and_self, if_true, hm] at h
      split at h
      · simp at h
      · split at h
        · simp at h
        · rename_i hA hB
          have h4 : (n * 10 + (c.toNat - '0'.toNat)) % 2 ^ 64 =
              n * 10 + (c.toNat - '0'.toNat) := by omega
          rw [h4] at h
          obtain ⟨ihd, ihv⟩ := ih _ h
          refine ⟨?_, ?_⟩
          · intro x hx
            rcases List.mem_cons.mp hx with rfl | hx
            · exact hc
            · exact ihd x hx
          · intro _
            simp only [List.foldl_cons]
            exact ihv (by rw [hm]; omega)
    · have hc2 : ¬ ('0' ≤ c ∧ c ≤ '9') := hc
      simp [hc2] at h

/-- A range error of the digit scan comes with the largest value. -/
theorem parseUintLoop_range (cs : List Char) : ∀ n : Nat,
    (parseUintLoop cs n).2 = some NumError.ErrRange → (parseUintLoop cs n).1 = maxUint64 := by
  induction cs with
  | nil => intro n h; simp [parseUintLoop] at h
  | cons c cs ih =>
    intro n h
    rw [parseUintLoop] at h ⊢
    by_cases hc : '0' ≤ c ∧ c ≤ '9'
    · simp only [hc, and_self, if_true] at h ⊢
      by_cases h1 : n ≥ maxUint64 / 10 + 1
      · simp only [h1, if_true]
      · simp only [h1, if_false] at h ⊢
        by_cases h3 : (n * 10 + (c.toNat - '0'.toNat)) % 2 ^ 64 < n * 10 ∨
            (n * 10 + (c.toNat - '0'.toNat)) % 2 ^ 64 > maxUint64
        · simp only [h3, if_true]
        · simp only [h3, if_false] at h ⊢
          exact ih _ h
    · simp [hc] at h

/-- The sign and range handling accepts exactly a non-empty run of digits
whose value lies in the range of the sign, and then returns the signed value. -/
theorem parseIntSigned_ok_iff (neg : Bool) (s : List Char) :
    (parseIntSigned neg s).2 = none ↔
      (s ≠ [] ∧ (∀ x ∈ s, '0' ≤ x ∧ x ≤ '9') ∧
        (if neg then specDecimalValue s ≤ 2 ^ 63 else specDecimalValue s < 2 ^ 63)) := by
  have hm : maxUint64 = 18446744073709551615 := by decide
  by_cases hs : s = []
  · subst hs
    simp [parseIntSigned, ParseUint]
  · by_cases hgood : (∀ x ∈ s, '0' ≤ x ∧ x ≤ '9') ∧ specDecimalValue s ≤ maxUint64
    · have hp : ParseUint s = (specDecimalValue s, none) := by
        unfold ParseUint
        rw [if_neg hs]
        exact parseUintLoop_of_digits s 0 hgood.1 hgood.2
      unfold parseIntSigned
      rw [hp]
      cases neg
      · by_cases hr : 9223372036854775808 ≤ specDecimalValue s
        · simp [hs, hr]
        · simp [hs, hr]
          exact ⟨hgood.1, by omega⟩
      · by_cases hr : 9223372036854775808 < specDecimalValue s
        · simp [hs, hr]
        · simp [hs, hr]
          exact ⟨hgood.1, by omega⟩
    · have hbad : (ParseUint s).2 ≠ none := by
        intro h
        unfold ParseUint at h
        rw [if_neg hs] at h
        obtain ⟨hd, hv⟩ := digits_of_parseUintLoop s 0 h
        exact hgood ⟨hd, hv (by rw [hm]; omega)⟩
      have hrhs : ¬ (s ≠ [] ∧ (∀ x ∈ s, '0' ≤ x ∧ x ≤ '9') ∧
          (if neg then specDecimalValue s ≤ 2 ^ 63 else specDecimalValue s < 2 ^ 63)) := by
        rintro ⟨-, hd, hv⟩
        apply hgood
        refine ⟨hd, ?_⟩
        rw [hm]
        cases neg
        · simp at hv; omega
        · simp at hv; omega
      refine ⟨fun h => ?_, fun h => absurd h hrhs⟩
      exfalso
      unfold parseIntSigned at h
      rcases hp : ParseUint s with ⟨un, e⟩
      rw [hp] at h hbad
      cases e with
      | none => exact hbad rfl
      | some e =>
        cases e with
        | ErrSyntax => simp at h
        | ErrRange =>
          have hun : un = maxUint64 := by
            have h1 : (ParseUint s).1 = maxUint64 := by
              unfold ParseUint
              rw [if_neg hs]
              apply parseUintLoop_range
              have h2 : (ParseUint s).2 = some NumError.ErrRange := by rw [hp]
              unfold ParseUint at h2
              rw [if_neg hs] at h2
              exact h2
            rw [hp] at h1
            exact h1
          subst hun
          cases neg <;> simp [hm] at h

/-- The integer parser returns no error exactly on the text of a base-10
signed 64-bit integer. -/
theorem ParseInt_ok_iff (s : String) : (ParseInt s).2 = none ↔ specIsBase10Int64 s = true := by
  unfold ParseInt specIsBase10Int64
  cases hs : s.data with
  | nil => simp
  | cons c rest =>
    simp only []
    by_cases hp : c = '+'
    · subst hp
      rw [if_pos rfl, parseIntSigned_ok_iff]
      simp
    · rw [if_neg hp]
      by_cases hn : c = '-'
      · subst hn
        rw [if_pos rfl, parseIntSigned_ok_iff]
        simp
      · rw [if_neg hn, parseIntSigned_ok_iff]
        simp [hp, hn]

/-! ## Decimal text of floating-point numbers: auxiliary facts -/

/-- Removing trailing zeros keeps a leading digit that is not `'0'`. -/
theorem dropWhile_append_singleton (p : Char → Bool) (c : Char) (hc : p c = false) :
    ∀ xs : List Char, (xs ++ [c]).dropWhile p = xs.dropWhile p ++ [c] := by
  intro xs
  induction xs with
  | nil => simp [List.dropWhile, hc]
  | cons x xs ih =>
    cases hx : p x with
    | true => simp [List.dropWhile, hx, ih]
    | false => simp [List.dropWhile, hx]

/-- The exact expansion of a non-zero mantissa starts with a non-zero digit. -/
theorem exactDigits_startsNonzero (mant : Nat) (exp : Int) (hm : mant ≠ 0) :
    (exactDigits mant exp).startsNonzero = true := by
  unfold exactDigits decimalSlice.startsNonzero
  have key : ∀ n : Nat, 0 < n → ∃ c cs, c ≠ '0' ∧
      ((formatBits n).reverse.dropWhile (fun c => decide (c = '0'))).reverse = c :: cs := by
    intro n hn
    obtain ⟨d, rest, hd, he, hz⟩ := formatBitsLoop_head (n + 1) n [] (by omega)
    have hne := (digitChar_spec d hd).2.2.2.2.2 (hz hn)
    refine ⟨digitChar d, (rest.reverse.dropWhile (fun c => decide (c = '0'))).reverse, hne, ?_⟩
    unfold formatBits
    rw [he, List.reverse_cons, dropWhile_append_singleton _ _ (by simpa using hne)]
    simp
  have hpos : 0 < (if exp ≥ 0 then mant * 2 ^ exp.toNat else mant * 5 ^ (-exp).toNat) := by
    split <;> positivity
  obtain ⟨c, cs, hc, he⟩ := key _ hpos
  simp only [he]
  simpa using hc

/-- The text of a `float64` that is not a zero is not `"0"`, provided the
digit generation starts the digits of a non-zero mantissa with a non-zero digit. -/
theorem FormatFloat_ne_zero (rt : Platform) (f : Float64) (hnz : f.isZero = false)
    (hryu : ∀ mant exp, mant ≠ 0 → (rt.shortestDigits mant exp).startsNonzero = true) :
    FormatFloat rt f ≠ "0" := by
  have hd : (shortestOf rt f).startsNonzero = true := by
    unfold shortestOf ryuFtoaShortest
    have hm : (if f.exp = 0 then f.mant else f.mant + 2 ^ 52) ≠ 0 := by
      unfold Float64.isZero at hnz
      by_cases h0 : f.exp = 0
      · rw [if_pos h0]
        intro hm0
        simp [h0, hm0] at hnz
      · rw [if_neg h0]
        positivity
    simp only [hm, if_false]
    exact hryu _ _ hm
  unfold FormatFloat
  by_cases he : f.exp = 2047
  · rw [if_pos he]
    split
    · decide
    · split <;> decide
  · rw [if_neg he]
    have hs := hd
    unfold decimalSlice.startsNonzero at hs
    apply mk_ne_of_data_ne
    generalize shortestOf rt f = digs at hs ⊢
    obtain ⟨d, dp⟩ := digs
    cases d with
    | nil => simp at hs
    | cons c cs =>
      have hc : c ≠ '0' := by simpa using hs
      unfold fmtF
      cases hneg : f.neg with
      | true =>
        intro e
        simp at e
      | false =>
        by_cases hdp : dp > 0
        · have hm : min (cs.length + 1) dp.toNat = (min (cs.length + 1) dp.toNat - 1) + 1 := by
            omega
          intro e
          simp only [hdp, if_true, List.length_cons] at e
          rw [hm, List.take_succ_cons] at e
          simp at e
          exact hc e.1
        · intro e
          have hp : ((cs.length + 1 : Nat) : Int) - dp > 0 := by omega
          have hp2 : (((c :: cs).length : Int) - dp).toNat > 0 := by
            simp only [List.length_cons]; omega
          simp only [hdp, if_false, hp2, if_true] at e
          simp at e

/-! ## Coercion: auxiliary facts -/

/-- The decimal text of an integer is not empty. -/
theorem FormatInt_ne_empty (i : Int) : FormatInt i ≠ "" := by
  unfold FormatInt
  split
  · apply mk_ne_of_data_ne
    exact List.cons_ne_nil _ _
  · apply mk_ne_of_data_ne
    obtain ⟨d, rest, -, he, -⟩ := formatBitsLoop_head (i.toNat + 1) i.toNat [] (by omega)
    unfold formatBits
    rw [he]
    exact List.cons_ne_nil _ _

/-- The text and presence of a current value, kind by kind. -/
theorem parseValue_bool (rt : Platform) (typ : String) (b : Bool) :
    parseValue rt "bool" ⟨typ, Payload.Bool b⟩ = some (FormatBool b, true) := rfl

/-- The text and presence of a current string. -/
theorem parseValue_string (rt : Platform) (typ s : String) :
    parseValue rt "string" ⟨typ, Payload.String s⟩ = some (s, decide (s ≠ "")) := rfl

/-- The text and presence of a current integer. -/
theorem parseValue_int (rt : Platform) (typ : String) (i : Int) :
    parseValue rt "int" ⟨typ, Payload.Int i⟩ = some (FormatInt i, decide (FormatInt i ≠ "0")) :=
  rfl

/-- The text and presence of a current floating-point number. -/
theorem parseValue_float (rt : Platform) (typ : String) (f : Float64) :
    parseValue rt "float64" ⟨typ, Payload.Float f⟩ =
      some (FormatFloat rt f, decide (FormatFloat rt f ≠ "0")) := rfl

/-- The steps of `reflectInt` after the string `s` was resolved. -/
theorem reflectInt_of_ret (rt : Platform) (cfg : Settings) (field : StructField) (value : Value)
    (tag out s : String) (h : (getNewValue rt cfg field value tag "int" out).ret = some s) :
    reflectInt rt cfg field value tag out =
      if s = "" then
        ⟨Outcome.returned none, value,
          (getNewValue rt cfg field value tag "int" out).PrintDefaultsOutput⟩
      else
        match ParseInt s with
        | (_, some err) => ⟨Outcome.returned (some err), value,
            (getNewValue rt cfg field value tag "int" out).PrintDefaultsOutput⟩
        | (intNewValue, none) =>
          match value.SetInt intNewValue with
          | none => ⟨Outcome.panicked, value,
              (getNewValue rt cfg field value tag "int" out).PrintDefaultsOutput⟩
          | some v => ⟨Outcome.returned none, v,
              (getNewValue rt cfg field value tag "int" out).PrintDefaultsOutput⟩ := by
  unfold reflectInt
  simp only [h]

/-- The steps of `reflectFloat` after the string `s` was resolved. -/
theorem reflectFloat_of_ret (rt : Platform) (cfg : Settings) (field : StructField)
    (value : Value) (tag out s : String)
    (h : (getNewValue rt cfg field value tag "float64" out).ret = some s) :
    reflectFloat rt cfg field value tag out =
      if s = "" then
        ⟨Outcome.returned none, value,
          (getNewValue rt cfg field value tag "float64" out).PrintDefaultsOutput⟩
      else
        match rt.ParseFloat s with
        | (_, some err) => ⟨Outcome.returned (some err), value,
            (getNewValue rt cfg field value tag "float64" out).PrintDefaultsOutput⟩
        | (floatNewValue, none) =>
          match value.SetFloat floatNewValue with
          | none => ⟨Outcome.panicked, value,
              (getNewValue rt cfg field value tag "float64" out).PrintDefaultsOutput⟩
          | some v => ⟨Outcome.returned none, v,
              (getNewValue rt cfg field value tag "float64" out).PrintDefaultsOutput⟩ := by
  unfold reflectFloat
  simp only [h]

/-- The steps of `reflectString` after the string `s` was resolved. -/
theorem reflectString_of_ret (rt : Platform) (cfg : Settings) (field : StructField)
    (value : Value) (tag out s : String)
    (h : (getNewValue rt cfg field value tag "string" out).ret = some s) :
    reflectString rt cfg field value tag out =
      if s = "" then
        ⟨Outcome.returned none, value,
          (getNewValue rt cfg field value tag "string" out).PrintDefaultsOutput⟩
      else
        match value.SetString s with
        | none => ⟨Outcome.panicked, value,
            (getNewValue rt cfg field value tag "string" out).PrintDefaultsOutput⟩
        | some v => ⟨Outcome.returned none, v,
            (getNewValue rt cfg field value tag "string" out).PrintDefaultsOutput⟩ := by
  unfold reflectString
  simp only [h]

/-- The steps of `reflectBool` after the string `s` was resolved. -/
theorem reflectBool_of_ret (rt : Platform) (cfg : Settings) (field : StructField)
    (value : Value) (tag out s : String)
    (h : (getNewValue rt cfg field value tag "bool" out).ret = some s) :
    reflectBool rt cfg field value tag out =
      if s = "" then
        ⟨Outcome.returned none, value,
          (getNewValue rt cfg field value tag "bool" out).PrintDefaultsOutput⟩
      else
        match value.SetBool (decide (stringsToLower rt s = "true" ∨ stringsToLower rt s = "t" ∨
            stringsToLower rt s = "1")) with
        | none => ⟨Outcome.panicked, value,
            (getNewValue rt cfg field value tag "bool" out).PrintDefaultsOutput⟩
        | some v => ⟨Outcome.returned none, v,
            (getNewValue rt cfg field value tag "bool" out).PrintDefaultsOutput⟩ := by
  unfold reflectBool
  simp only [h]

/-- An integer field holding 0 resolves to the default when no variable is set. -/
theorem getNewValue_int_zero (rt : Platform) (cfg : Settings) (field : StructField)
    (typ tag out : String) (henv : rt.LookupEnv (specEnvName rt cfg tag) = none) :
    (getNewValue rt cfg field ⟨typ, Payload.Int 0⟩ tag "int" out).ret =
      some (field.TagGet cfg.TagDefault) := by
  rw [getNewValue_ret_of_unset _ _ _ _ _ _ _ henv, parseValue_int]
  rfl

/-- Lower-casing leaves the texts `"true"` and `"false"` as they are. -/
theorem stringsToLower_FormatBool (rt : Platform) (b : Bool) :
    stringsToLower rt (FormatBool b) = FormatBool b := by
  cases b <;> rfl

/-- Only the variable named by the normalised tag matters to `getNewValue`. -/
theorem getNewValue_congr_env (rt : Platform) (cfg : Settings) (field : StructField)
    (value : Value) (tag datatype out : String) (env1 env2 : String → Option String)
    (h : env1 (specEnvName rt cfg tag) = env2 (specEnvName rt cfg tag)) :
    getNewValue (rt.withEnv env1) cfg field value tag datatype out =
      getNewValue (rt.withEnv env2) cfg field value tag datatype out := by
  have h1 : (rt.withEnv env1).LookupEnv (specEnvName (rt.withEnv env1) cfg tag) =
      (rt.withEnv env2).LookupEnv (specEnvName (rt.withEnv env2) cfg tag) := h
  unfold specEnvName at h1
  unfold getNewValue
  simp only [h1]
  rfl

/-- The help buffer after each coercion call is the one `getNewValue` leaves. -/
theorem coercer_buffer (c : Coercer) (rt : Platform) (cfg : Settings) (field : StructField)
    (value : Value) (tag out : String) :
    (c.call rt cfg field value tag out).PrintDefaultsOutput =
      out ++ specHelpStanza rt (specEnvName rt cfg tag) c.datatype (field.TagGet cfg.TagDefault) := by
  rw [← getNewValue_buffer rt cfg field value tag c.datatype out]
  cases c
  · unfold Coercer.call reflectInt
    simp only [Coercer.datatype]
    split
    · rfl
    · split
      · rfl
      · split
        · rfl
        · split <;> rfl
  · unfold Coercer.call reflectFloat
    simp only [Coercer.datatype]
    split
    · rfl
    · split
      · rfl
      · split
        · rfl
        · split <;> rfl
  · unfold Coercer.call reflectString
    simp only [Coercer.datatype]
    split
    · rfl
    · split
      · rfl
      · split <;> rfl
  · unfold Coercer.call reflectBool
    simp only [Coercer.datatype]
    split
    · rfl
    · split
      · rfl
      · split <;> rfl

/-- Joining strings after a first one. -/
theorem join_cons (x : String) (xs : List String) : String.join (x :: xs) = x ++ String.join xs := by
  apply String.ext
  simp [String.data_join]

/-! ## Outcomes of the callbacks: auxiliary facts -/

/-- The string returned by `getNewValue` does not depend on the help buffer. -/
theorem getNewValue_ret_buffer (rt : Platform) (cfg : Settings) (field : StructField)
    (value : Value) (tag datatype out out2 : String) :
    (getNewValue rt cfg field value tag datatype out).ret =
      (getNewValue rt cfg field value tag datatype out2).ret := by
  cases h : rt.LookupEnv (specEnvName rt cfg tag) with
  | some v =>
    rw [getNewValue_ret_of_env _ _ _ _ _ _ _ _ h, getNewValue_ret_of_env _ _ _ _ _ _ _ _ h]
  | none =>
    rw [getNewValue_ret_of_unset _ _ _ _ _ _ _ h, getNewValue_ret_of_unset _ _ _ _ _ _ _ h]

/-- On a string field `getNewValue` always returns a string. -/
theorem getNewValue_string_some (rt : Platform) (cfg : Settings) (field : StructField)
    (typ s0 tag out : String) :
    ∃ s, (getNewValue rt cfg field ⟨typ, Payload.String s0⟩ tag "string" out).ret = some s := by
  cases h : rt.LookupEnv (specEnvName rt cfg tag) with
  | some v => exact ⟨v, getNewValue_ret_of_env _ _ _ _ _ _ _ _ h⟩
  | none =>
    rw [getNewValue_ret_of_unset _ _ _ _ _ _ _ h, parseValue_string]
    by_cases hs : s0 = ""
    · exact ⟨field.TagGet cfg.TagDefault, by simp [hs]⟩
    · exact ⟨s0, by simp [hs]⟩

/-- On a boolean field `getNewValue` always returns a string. -/
theorem getNewValue_bool_some (rt : Platform) (cfg : Settings) (field : StructField)
    (typ tag out : String) (b : Bool) :
    ∃ s, (getNewValue rt cfg field ⟨typ, Payload.Bool b⟩ tag "bool" out).ret = some s := by
  cases h : rt.LookupEnv (specEnvName rt cfg tag) with
  | some v => exact ⟨v, getNewValue_ret_of_env _ _ _ _ _ _ _ _ h⟩
  | none =>
    rw [getNewValue_ret_of_unset _ _ _ _ _ _ _ h, parseValue_bool]
    exact ⟨_, rfl⟩

/-- The outcome of `reflectString` is never an error. -/
theorem reflectString_no_error (rt : Platform) (cfg : Settings) (field : StructField)
    (value : Value) (tag out : String) (err : NumError) :
    (reflectString rt cfg field value tag out).outcome ≠ Outcome.returned (some err) := by
  unfold reflectString
  dsimp only
  split
  · simp
  · split
    · simp
    · split <;> simp

/-- The outcome of `reflectBool` is never an error. -/
theorem reflectBool_no_error (rt : Platform) (cfg : Settings) (field : StructField)
    (value : Value) (tag out : String) (err : NumError) :
    (reflectBool rt cfg field value tag out).outcome ≠ Outcome.returned (some err) := by
  unfold reflectBool
  dsimp only
  split
  · simp
  · split
    · simp
    · split <;> simp

/-- The result of `reflectInt` on an integer field, from the resolved string. -/
theorem reflectInt_on_int (rt : Platform) (cfg : Settings) (field : StructField)
    (typ tag out s : String) (v : Int)
    (h : (getNewValue rt cfg field ⟨typ, Payload.Int v⟩ tag "int" out).ret = some s) :
    (s = "" →
        (reflectInt rt cfg field ⟨typ, Payload.Int v⟩ tag out).outcome = Outcome.returned none ∧
          (reflectInt rt cfg field ⟨typ, Payload.Int v⟩ tag out).value = ⟨typ, Payload.Int v⟩) ∧
      (s ≠ "" → ∀ n, ParseInt s = (n, none) →
        (reflectInt rt cfg field ⟨typ, Payload.Int v⟩ tag out).outcome = Outcome.returned none ∧
          (reflectInt rt cfg field ⟨typ, Payload.Int v⟩ tag out).value = ⟨typ, Payload.Int n⟩) ∧
      (s ≠ "" → ∀ n err, ParseInt s = (n, some err) →
        (reflectInt rt cfg field ⟨typ, Payload.Int v⟩ tag out).outcome =
          Outcome.returned (some err)) := by
  rw [reflectInt_of_ret _ _ _ _ _ _ _ h]
  refine ⟨?_, ?_, ?_⟩
  · intro hs
    rw [if_pos hs]
    exact ⟨rfl, rfl⟩
  · intro hs n hp
    rw [if_neg hs, hp]
    exact ⟨rfl, rfl⟩
  · intro hs n err hp
    rw [if_neg hs, hp]

/-- A number parsed without error lies in the signed 64-bit range. -/
theorem parseIntSigned_range (neg : Bool) (s : List Char) (n : Int)
    (h : parseIntSigned neg s = (n, none)) : -2 ^ 63 ≤ n ∧ n < 2 ^ 63 := by
  unfold parseIntSigned at h
  rcases hp : ParseUint s with ⟨un, e⟩
  rw [hp] at h
  cases e with
  | some e =>
    cases e with
    | ErrSyntax => simp at h
    | ErrRange =>
      cases neg
      · simp only [Bool.not_false, true_and, Bool.false_eq_true, false_and, if_false] at h
        split at h
        · simp at h
        · rename_i h1
          have := (Prod.mk.inj h).1
          omega
      · simp only [Bool.not_true, Bool.false_eq_true, false_and, if_false, true_and,
          if_true] at h
        split at h
        · simp at h
        · rename_i h1
          have := (Prod.mk.inj h).1
          omega
  | none =>
    cases neg
    · simp only [Bool.not_false, true_and, Bool.false_eq_true, false_and, if_false] at h
      split at h
      · simp at h
      · rename_i h1
        have := (Prod.mk.inj h).1
        omega
    · simp only [Bool.not_true, Bool.false_eq_true, false_and, if_false, true_and,
        if_true] at h
      split at h
      · simp at h
      · rename_i h1
        have := (Prod.mk.inj h).1
        omega

/-- The integer parser returns, without error, only numbers of the signed 64-bit range. -/
theorem ParseInt_range (s : String) (n : Int) (h : ParseInt s = (n, none)) :
    -2 ^ 63 ≤ n ∧ n < 2 ^ 63 := by
  unfold ParseInt at h
  split at h
  · simp at h
  · split at h
    · exact parseIntSigned_range _ _ _ h
    · split at h
      · exact parseIntSigned_range _ _ _ h
      · exact parseIntSigned_range _ _ _ h

/-- A rune that is printable and neither a quote nor a backslash is written as it is. -/
theorem appendEscapedRune_plain (rt : Platform) (c : Char)
    (h : IsPrint rt c = true ∧ c ≠ '"' ∧ c ≠ '\\') : appendEscapedRune rt c = [c] := by
  unfold appendEscapedRune
  obtain ⟨hp, hq, hb⟩ := h
  simp [hp, hq, hb]

/-- The quoted form of a string of plain runes: the string between double quotes. -/
theorem Quote_plain (rt : Platform) (d : String)
    (h : ∀ c ∈ d.data, IsPrint rt c = true ∧ c ≠ '"' ∧ c ≠ '\\') :
    (Quote rt d).data = '"' :: d.data ++ ['"'] := by
  unfold Quote
  have key : ∀ l : List Char, (∀ c ∈ l, IsPrint rt c = true ∧ c ≠ '"' ∧ c ≠ '\\') →
      (l.map (appendEscapedRune rt)).flatten = l := by
    intro l
    induction l with
    | nil => intro _; rfl
    | cons c cs ih =>
      intro hl
      rw [List.map_cons, List.flatten_cons, appendEscapedRune_plain rt c (hl c (List.mem_cons_self _ _)),
        ih (fun x hx => hl x (List.mem_cons_of_mem _ hx))]
      rfl
  rw [key d.data h]

/-- The result of `reflectString` on a string field, from the resolved string. -/
theorem reflectString_on_string (rt : Platform) (cfg : Settings) (field : StructField)
    (typ tag out s s0 : String)
    (h : (getNewValue rt cfg field ⟨typ, Payload.String s0⟩ tag "string" out).ret = some s) :
    (reflectString rt cfg field ⟨typ, Payload.String s0⟩ tag out).outcome =
        Outcome.returned none ∧
      (reflectString rt cfg field ⟨typ, Payload.String s0⟩ tag out).value =
        ⟨typ, Payload.String (if s = "" then s0 else s)⟩ := by
  rw [reflectString_of_ret _ _ _ _ _ _ _ h]
  by_cases hs : s = ""
  · rw [if_pos hs, if_pos hs]
    exact ⟨rfl, rfl⟩
  · rw [if_neg hs, if_neg hs]
    exact ⟨rfl, rfl⟩

/-- The result of `reflectBool` on a boolean field, from the resolved string. -/
theorem reflectBool_on_bool (rt : Platform) (cfg : Settings) (field : StructField)
    (typ tag out s : String) (b : Bool)
    (h : (getNewValue rt cfg field ⟨typ, Payload.Bool b⟩ tag "bool" out).ret = some s) :
    (reflectBool rt cfg field ⟨typ, Payload.Bool b⟩ tag out).outcome = Outcome.returned none ∧
      (reflectBool rt cfg field ⟨typ, Payload.Bool b⟩ tag out).value =
        ⟨typ, Payload.Bool (if s = "" then b else
          decide (stringsToLower rt s = "true" ∨ stringsToLower rt s = "t" ∨
            stringsToLower rt s = "1"))⟩ := by
  rw [reflectBool_of_ret _ _ _ _ _ _ _ h]
  by_cases hs : s = ""
  · rw [if_pos hs, if_pos hs]
    exact ⟨rfl, rfl⟩
  · rw [if_neg hs, if_neg hs]
    exact ⟨rfl, rfl⟩

/-- A first call of `reflectInt` that returns no error leaves an integer on
which every further call returns no error and changes nothing. -/
theorem reflectInt_stable (rt : Platform) (cfg : Settings) (field : StructField)
    (typ tag out : String) (v : Int) (hlo : -2 ^ 63 ≤ v) (hhi : v < 2 ^ 63)
    (h : (reflectInt rt cfg field ⟨typ, Payload.Int v⟩ tag out).outcome =
      Outcome.returned none) :
    ∃ w, (reflectInt rt cfg field ⟨typ, Payload.Int v⟩ tag out).value = ⟨typ, Payload.Int w⟩ ∧
      ∀ out2, (reflectInt rt cfg field ⟨typ, Payload.Int w⟩ tag out2).outcome =
          Outcome.returned none ∧
        (reflectInt rt cfg field ⟨typ, Payload.Int w⟩ tag out2).value =
          ⟨typ, Payload.Int w⟩ := by
  -- the resolved string of a call decides its result
  have step : ∀ (u : Int) (o s : String),
      (getNewValue rt cfg field ⟨typ, Payload.Int u⟩ tag "int" o).ret = some s →
      (s = "" ∨ ParseInt s = (u, none)) →
      (reflectInt rt cfg field ⟨typ, Payload.Int u⟩ tag o).outcome = Outcome.returned none ∧
        (reflectInt rt cfg field ⟨typ, Payload.Int u⟩ tag o).value = ⟨typ, Payload.Int u⟩ := by
    intro u o s hr hs
    by_cases he : s = ""
    · exact (reflectInt_on_int rt cfg field typ tag o s u hr).1 he
    · rcases hs with hs | hs
      · exact absurd hs he
      · exact (reflectInt_on_int rt cfg field typ tag o s u hr).2.1 he u hs
  have nonzero : ∀ (u : Int) (o : String), -2 ^ 63 ≤ u → u < 2 ^ 63 → u ≠ 0 →
      rt.LookupEnv (specEnvName rt cfg tag) = none →
      (reflectInt rt cfg field ⟨typ, Payload.Int u⟩ tag o).outcome = Outcome.returned none ∧
        (reflectInt rt cfg field ⟨typ, Payload.Int u⟩ tag o).value = ⟨typ, Payload.Int u⟩ := by
    intro u o h1 h2 h0 henv
    have hr : (getNewValue rt cfg field ⟨typ, Payload.Int u⟩ tag "int" o).ret =
        some (FormatInt u) := by
      rw [getNewValue_ret_of_unset _ _ _ _ _ _ _ henv, parseValue_int,
        decide_eq_true (FormatInt_ne_zero u h0)]
    exact step u o _ hr (Or.inr (ParseInt_FormatInt u h1 h2))
  cases henv : rt.LookupEnv (specEnvName rt cfg tag) with
  | some s =>
    have hr : ∀ (u : Int) (o : String),
        (getNewValue rt cfg field ⟨typ, Payload.Int u⟩ tag "int" o).ret = some s :=
      fun u o => getNewValue_ret_of_env _ _ _ _ _ _ _ _ henv
    by_cases he : s = ""
    · exact ⟨v, ((reflectInt_on_int rt cfg field typ tag out s v (hr v out)).1 he).2,
        fun o => step v o s (hr v o) (Or.inl he)⟩
    · rcases hp : ParseInt s with ⟨n, e⟩
      cases e with
      | some err =>
        have := (reflectInt_on_int rt cfg field typ tag out s v (hr v out)).2.2 he n err hp
        rw [this] at h
        simp at h
      | none =>
        exact ⟨n, ((reflectInt_on_int rt cfg field typ tag out s v (hr v out)).2.1 he n hp).2,
          fun o => step n o s (hr n o) (Or.inr hp)⟩
  | none =>
    by_cases h0 : v = 0
    · subst h0
      have hr : ∀ o : String, (getNewValue rt cfg field ⟨typ, Payload.Int 0⟩ tag "int" o).ret =
          some (field.TagGet cfg.TagDefault) :=
        fun o => getNewValue_int_zero rt cfg field typ tag o henv
      by_cases he : field.TagGet cfg.TagDefault = ""
      · exact ⟨0, ((reflectInt_on_int rt cfg field typ tag out _ 0 (hr out)).1 he).2,
          fun o => step 0 o _ (hr o) (Or.inl he)⟩
      · rcases hp : ParseInt (field.TagGet cfg.TagDefault) with ⟨n, e⟩
        cases e with
        | some err =>
          have := (reflectInt_on_int rt cfg field typ tag out _ 0 (hr out)).2.2 he n err hp
          rw [this] at h
          simp at h
        | none =>
          refine ⟨n, ((reflectInt_on_int rt cfg field typ tag out _ 0 (hr out)).2.1 he n hp).2,
            fun o => ?_⟩
          by_cases hn : n = 0
          · subst hn
            exact step 0 o _ (hr o) (Or.inr hp)
          · obtain ⟨r1, r2⟩ := ParseInt_range _ n hp
            exact nonzero n o r1 r2 hn henv
    · exact ⟨v, (nonzero v out hlo hhi h0 henv).2, fun o => nonzero v o hlo hhi h0 henv⟩

/-- A call of `reflectString` leaves a string on which every further call
changes nothing. -/
theorem reflectString_stable (rt : Platform) (cfg : Settings) (field : StructField)
    (typ tag out s0 : String) :
    ∃ w, (reflectString rt cfg field ⟨typ, Payload.String s0⟩ tag out).value =
        ⟨typ, Payload.String w⟩ ∧
      ∀ out2, (reflectString rt cfg field ⟨typ, Payload.String w⟩ tag out2).outcome =
          Outcome.returned none ∧
        (reflectString rt cfg field ⟨typ, Payload.String w⟩ tag out2).value =
          ⟨typ, Payload.String w⟩ := by
  cases henv : rt.LookupEnv (specEnvName rt cfg tag) with
  | some s =>
    have hr : ∀ (u o : String),
        (getNewValue rt cfg field ⟨typ, Payload.String u⟩ tag "string" o).ret = some s :=
      fun u o => getNewValue_ret_of_env _ _ _ _ _ _ _ _ henv
    refine ⟨if s = "" then s0 else s,
      (reflectString_on_string rt cfg field typ tag out s s0 (hr s0 out)).2, fun o => ?_⟩
    obtain ⟨h1, h2⟩ := reflectString_on_string rt cfg field typ tag o s _ (hr _ o)
    refine ⟨h1, ?_⟩
    rw [h2]
    by_cases he : s = ""
    · simp [he]
    · simp [he]
  | none =>
    have hr : ∀ (u o : String),
        (getNewValue rt cfg field ⟨typ, Payload.String u⟩ tag "string" o).ret =
          some (if u = "" then field.TagGet cfg.TagDefault else u) := by
      intro u o
      rw [getNewValue_ret_of_unset _ _ _ _ _ _ _ henv, parseValue_string]
      by_cases hu : u = ""
      · simp [hu]
      · simp [hu]
    obtain ⟨-, h2⟩ := reflectString_on_string rt cfg field typ tag out _ s0 (hr s0 out)
    refine ⟨_, h2, fun o => ?_⟩
    obtain ⟨k1, k2⟩ := reflectString_on_string rt cfg field typ tag o _ _ (hr _ o)
    refine ⟨k1, ?_⟩
    rw [k2]
    by_cases h0 : s0 = ""
    · by_cases hd : field.TagGet cfg.TagDefault = ""
      · simp [h0, hd]
      · simp [h0, hd]
    · simp [h0]

/-- A call of `reflectBool` leaves a boolean on which every further call
changes nothing. -/
theorem reflectBool_stable (rt : Platform) (cfg : Settings) (field : StructField)
    (typ tag out : String) (b : Bool) :
    ∃ w, (reflectBool rt cfg field ⟨typ, Payload.Bool b⟩ tag out).value =
        ⟨typ, Payload.Bool w⟩ ∧
      ∀ out2, (reflectBool rt cfg field ⟨typ, Payload.Bool w⟩ tag out2).outcome =
          Outcome.returned none ∧
        (reflectBool rt cfg field ⟨typ, Payload.Bool w⟩ tag out2).value =
          ⟨typ, Payload.Bool w⟩ := by
  cases henv : rt.LookupEnv (specEnvName rt cfg tag) with
  | some s =>
    have hr : ∀ (u : Bool) (o : String),
        (getNewValue rt cfg field ⟨typ, Payload.Bool u⟩ tag "bool" o).ret = some s :=
      fun u o => getNewValue_ret_of_env _ _ _ _ _ _ _ _ henv
    refine ⟨_, (reflectBool_on_bool rt cfg field typ tag out s b (hr b out)).2, fun o => ?_⟩
    obtain ⟨h1, h2⟩ := reflectBool_on_bool rt cfg field typ tag o s _ (hr _ o)
    refine ⟨h1, ?_⟩
    rw [h2]
    by_cases he : s = ""
    · simp [he]
    · simp [he]
  | none =>
    have hr : ∀ (u : Bool) (o : String),
        (getNewValue rt cfg field ⟨typ, Payload.Bool u⟩ tag "bool" o).ret =
          some (FormatBool u) := by
      intro u o
      rw [getNewValue_ret_of_unset _ _ _ _ _ _ _ henv, parseValue_bool]
    have fix : ∀ (u : Bool) (o : String),
        (reflectBool rt cfg field ⟨typ, Payload.Bool u⟩ tag o).outcome = Outcome.returned none ∧
          (reflectBool rt cfg field ⟨typ, Payload.Bool u⟩ tag o).value =
            ⟨typ, Payload.Bool u⟩ := by
      intro u o
      obtain ⟨h1, h2⟩ := reflectBool_on_bool rt cfg field typ tag o _ u (hr u o)
      refine ⟨h1, ?_⟩
      rw [h2, stringsToLower_FormatBool]
      cases u <;> rfl
    exact ⟨b, (fix b out).2, fun o => fix b o⟩

/-! ## The properties C1 to C16 -/

/-- C1: when the environment holds a variable named by the normalised tag,
`getNewValue` returns the contents of that variable, for every declared type,
every current value of the field and every default. -/
theorem C1_environment_value_wins (rt : Platform) (cfg : Settings) (field : StructField)
    (value : Value) (tag datatype out v : String)
    (henv : rt.LookupEnv (specEnvName rt cfg tag) = some v) :
    (getNewValue rt cfg field value tag datatype out).ret = some v :=
  getNewValue_ret_of_env rt cfg field value tag datatype out v henv

/-- C1 at a concrete input: `PORT=8080` wins over the current value 7 and the default 80. -/
theorem C1_environment_value_wins_witness :
    (examplePlatform "linux" [("PORT", "8080")]).LookupEnv
        (specEnvName (examplePlatform "linux" [("PORT", "8080")]) (Setup "cfg" "cfgDefault" true)
          "port") = some "8080" ∧
      (getNewValue (examplePlatform "linux" [("PORT", "8080")]) (Setup "cfg" "cfgDefault" true)
        ⟨[("cfg", "port"), ("cfgDefault", "80")]⟩ ⟨"int", Payload.Int 7⟩ "port" "int" "").ret =
        some "8080" :=
  ⟨by decide, C1_environment_value_wins _ _ _ _ _ _ _ _ (by decide)⟩

/-- C2: with the environment variable not set, a present current value (any
boolean, a non-empty string, a non-zero integer, a float that is not a zero)
is returned by `getNewValue` in its textual form, whatever the default is; the
digit generation is assumed to start the digits of a non-zero mantissa with a
non-zero digit. -/
theorem C2_current_value_before_default (rt : Platform) (cfg : Settings) (field : StructField)
    (typ tag out : String)
    (henv : rt.LookupEnv (specEnvName rt cfg tag) = none)
    (hryu : ∀ mant exp, mant ≠ 0 → (rt.shortestDigits mant exp).startsNonzero = true) :
    (∀ b : Bool, (getNewValue rt cfg field ⟨typ, Payload.Bool b⟩ tag "bool" out).ret =
        some (FormatBool b)) ∧
      (∀ s : String, s ≠ "" →
        (getNewValue rt cfg field ⟨typ, Payload.String s⟩ tag "string" out).ret = some s) ∧
      (∀ i : Int, i ≠ 0 →
        (getNewValue rt cfg field ⟨typ, Payload.Int i⟩ tag "int" out).ret =
          some (FormatInt i)) ∧
      (∀ f : Float64, f.isZero = false →
        (getNewValue rt cfg field ⟨typ, Payload.Float f⟩ tag "float64" out).ret =
          some (FormatFloat rt f)) := by
  refine ⟨?_, ?_, ?_, ?_⟩
  · intro b
    rw [getNewValue_ret_of_unset _ _ _ _ _ _ _ henv, parseValue_bool]
  · intro s hs
    rw [getNewValue_ret_of_unset _ _ _ _ _ _ _ henv, parseValue_string, decide_eq_true hs]
  · intro i hi
    rw [getNewValue_ret_of_unset _ _ _ _ _ _ _ henv, parseValue_int,
      decide_eq_true (FormatInt_ne_zero i hi)]
  · intro f hf
    rw [getNewValue_ret_of_unset _ _ _ _ _ _ _ henv, parseValue_float,
      decide_eq_true (FormatFloat_ne_zero rt f hf hryu)]

/-- C2 at a concrete input: with no variable set and the default 80, the
current values `true`, `"db"`, `7` and `1.5` are returned as text. -/
theorem C2_current_value_before_default_witness :
    (examplePlatform "linux" []).LookupEnv
        (specEnvName (examplePlatform "linux" []) (Setup "cfg" "cfgDefault" true) "port") = none ∧
      (getNewValue (examplePlatform "linux" []) (Setup "cfg" "cfgDefault" true)
        ⟨[("cfgDefault", "80")]⟩ ⟨"bool", Payload.Bool true⟩ "port" "bool" "").ret =
        some "true" ∧
      (getNewValue (examplePlatform "linux" []) (Setup "cfg" "cfgDefault" true)
        ⟨[("cfgDefault", "80")]⟩ ⟨"string", Payload.String "db"⟩ "port" "string" "").ret =
        some "db" ∧
      (getNewValue (examplePlatform "linux" []) (Setup "cfg" "cfgDefault" true)
        ⟨[("cfgDefault", "80")]⟩ ⟨"int", Payload.Int 7⟩ "port" "int" "").ret = some "7" ∧
      (getNewValue (examplePlatform "linux" []) (Setup "cfg" "cfgDefault" true)
        ⟨[("cfgDefault", "80")]⟩ ⟨"float64", Payload.Float ⟨0x3FF8000000000000⟩⟩ "port"
        "float64" "").ret = some "1.5" :=
  have h := C2_current_value_before_default (examplePlatform "linux" [])
    (Setup "cfg" "cfgDefault" true) ⟨[("cfgDefault", "80")]⟩
  ⟨by decide,
    (h "bool" "port" "" (by decide) exactDigits_startsNonzero).1 true,
    (h "string" "port" "" (by decide) exactDigits_startsNonzero).2.1 "db" (by decide),
    (h "int" "port" "" (by decide) exactDigits_startsNonzero).2.2.1 7 (by decide),
    (h "float64" "port" "" (by decide) exactDigits_startsNonzero).2.2.2
      ⟨0x3FF8000000000000⟩ (by decide)⟩

/-- C3, the claim as stated fails: a `float64` field holding negative zero is
a zero current value, yet with no variable set `getNewValue` returns its text
`"-0"` and not the default `"1.5"`. -/
theorem C3_negative_zero_counterexample :
    (⟨2 ^ 63⟩ : Float64).isZero = true ∧
      (examplePlatform "linux" []).LookupEnv
        (specEnvName (examplePlatform "linux" []) (Setup "cfg" "cfgDefault" true) "scale") = none ∧
      StructField.TagGet ⟨[("cfg", "scale"), ("cfgDefault", "1.5")]⟩
        (Setup "cfg" "cfgDefault" true).TagDefault = "1.5" ∧
      (getNewValue (examplePlatform "linux" []) (Setup "cfg" "cfgDefault" true)
        ⟨[("cfg", "scale"), ("cfgDefault", "1.5")]⟩ ⟨"float64", Payload.Float ⟨2 ^ 63⟩⟩
        "scale" "float64" "").ret = some "-0" ∧
      (getNewValue (examplePlatform "linux" []) (Setup "cfg" "cfgDefault" true)
        ⟨[("cfg", "scale"), ("cfgDefault", "1.5")]⟩ ⟨"float64", Payload.Float ⟨2 ^ 63⟩⟩
        "scale" "float64" "").ret ≠ some "1.5" := by
  decide

/-- C3, amended: with the environment variable not set, an integer field
whose current value is 0 and a `float64` field whose current value is
positive zero resolve to the declared default, for every default. -/
theorem C3_zero_falls_to_default (rt : Platform) (cfg : Settings) (field : StructField)
    (typ tag out : String)
    (henv : rt.LookupEnv (specEnvName rt cfg tag) = none) :
    (getNewValue rt cfg field ⟨typ, Payload.Int 0⟩ tag "int" out).ret =
        some (field.TagGet cfg.TagDefault) ∧
      (getNewValue rt cfg field ⟨typ, Payload.Float ⟨0⟩⟩ tag "float64" out).ret =
        some (field.TagGet cfg.TagDefault) := by
  constructor
  · exact getNewValue_int_zero rt cfg field typ tag out henv
  · rw [getNewValue_ret_of_unset _ _ _ _ _ _ _ henv, parseValue_float]
    rfl

/-- C3, amended, at a concrete input: the zero values resolve to the default `"1.5"`. -/
theorem C3_zero_falls_to_default_witness :
    (examplePlatform "linux" []).LookupEnv
        (specEnvName (examplePlatform "linux" []) (Setup "cfg" "cfgDefault" true) "scale") = none ∧
      (getNewValue (examplePlatform "linux" []) (Setup "cfg" "cfgDefault" true)
        ⟨[("cfg", "scale"), ("cfgDefault", "1.5")]⟩ ⟨"int", Payload.Int 0⟩
        "scale" "int" "").ret = some "1.5" ∧
      (getNewValue (examplePlatform "linux" []) (Setup "cfg" "cfgDefault" true)
        ⟨[("cfg", "scale"), ("cfgDefault", "1.5")]⟩ ⟨"float64", Payload.Float ⟨0⟩⟩
        "scale" "float64" "").ret = some "1.5" :=
  ⟨by decide,
    C3_zero_falls_to_default (examplePlatform "linux" []) (Setup "cfg" "cfgDefault" true)
      ⟨[("cfg", "scale"), ("cfgDefault", "1.5")]⟩ _ "scale" "" (by decide)⟩

/-- C4: with the environment variable not set, an integer field whose current
value is 0 and whose default is the base-10 text of the signed 64-bit integer
`n` is set to `n` by `reflectInt`, which returns no error. -/
theorem C4_default_integer_reproduced (rt : Platform) (cfg : Settings) (field : StructField)
    (typ tag out : String) (n : Int) (hlo : -2 ^ 63 ≤ n) (hhi : n < 2 ^ 63)
    (henv : rt.LookupEnv (specEnvName rt cfg tag) = none)
    (hdef : field.TagGet cfg.TagDefault = FormatInt n) :
    (reflectInt rt cfg field ⟨typ, Payload.Int 0⟩ tag out).outcome = Outcome.returned none ∧
      (reflectInt rt cfg field ⟨typ, Payload.Int 0⟩ tag out).value = ⟨typ, Payload.Int n⟩ := by
  have hret := getNewValue_int_zero rt cfg field typ tag out henv
  rw [hdef] at hret
  rw [reflectInt_of_ret _ _ _ _ _ _ _ hret, if_neg (FormatInt_ne_empty n),
    ParseInt_FormatInt n hlo hhi]
  exact ⟨rfl, rfl⟩

/-- C4 at a concrete input: the default `"42"` yields the integer 42. -/
theorem C4_default_integer_reproduced_witness :
    (-2 ^ 63 ≤ (42 : Int) ∧ (42 : Int) < 2 ^ 63) ∧
      (examplePlatform "linux" []).LookupEnv
        (specEnvName (examplePlatform "linux" []) (Setup "cfg" "cfgDefault" true) "answer") = none ∧
      StructField.TagGet ⟨[("cfg", "answer"), ("cfgDefault", "42")]⟩
        (Setup "cfg" "cfgDefault" true).TagDefault = FormatInt 42 ∧
      (reflectInt (examplePlatform "linux" []) (Setup "cfg" "cfgDefault" true)
        ⟨[("cfg", "answer"), ("cfgDefault", "42")]⟩ ⟨"int", Payload.Int 0⟩ "answer" "").outcome =
        Outcome.returned none ∧
      (reflectInt (examplePlatform "linux" []) (Setup "cfg" "cfgDefault" true)
        ⟨[("cfg", "answer"), ("cfgDefault", "42")]⟩ ⟨"int", Payload.Int 0⟩ "answer" "").value =
        ⟨"int", Payload.Int 42⟩ :=
  ⟨by decide, by decide, by decide,
    C4_default_integer_reproduced (examplePlatform "linux" []) (Setup "cfg" "cfgDefault" true)
      ⟨[("cfg", "answer"), ("cfgDefault", "42")]⟩ "int" "answer" "" 42 (by decide) (by decide)
      (by decide) (by decide)⟩

/-- C5, the claim as stated fails: with no variable set, a boolean field that
holds `false` and has the default `"true"` still holds `false` after
`reflectBool`. -/
theorem C5_bool_default_counterexample :
    (examplePlatform "linux" []).LookupEnv
        (specEnvName (examplePlatform "linux" []) (Setup "cfg" "cfgDefault" true) "debug") = none ∧
      StructField.TagGet ⟨[("cfg", "debug"), ("cfgDefault", "true")]⟩
        (Setup "cfg" "cfgDefault" true).TagDefault = "true" ∧
      (reflectBool (examplePlatform "linux" []) (Setup "cfg" "cfgDefault" true)
        ⟨[("cfg", "debug"), ("cfgDefault", "true")]⟩ ⟨"bool", Payload.Bool false⟩ "debug" "") =
        ⟨Outcome.returned none, ⟨"bool", Payload.Bool false⟩,
          "  $DEBUG bool\n\t(default \"true\")\n"⟩ ∧
      (reflectBool (examplePlatform "linux" []) (Setup "cfg" "cfgDefault" true)
        ⟨[("cfg", "debug"), ("cfgDefault", "true")]⟩ ⟨"bool", Payload.Bool false⟩ "debug"
        "").value ≠ ⟨"bool", Payload.Bool true⟩ := by
  decide

/-- C5, amended: with the environment variable not set, `reflectBool` returns
no error and leaves a boolean field at its current value, for every default;
the current value of a boolean always counts as present, so a field holding
`false` with the default `"true"` keeps `false`. -/
theorem C5_bool_keeps_current_value (rt : Platform) (cfg : Settings) (field : StructField)
    (typ tag out : String) (b : Bool)
    (henv : rt.LookupEnv (specEnvName rt cfg tag) = none) :
    (reflectBool rt cfg field ⟨typ, Payload.Bool b⟩ tag out).outcome = Outcome.returned none ∧
      (reflectBool rt cfg field ⟨typ, Payload.Bool b⟩ tag out).value = ⟨typ, Payload.Bool b⟩ := by
  have hret : (getNewValue rt cfg field ⟨typ, Payload.Bool b⟩ tag "bool" out).ret =
      some (FormatBool b) := by
    rw [getNewValue_ret_of_unset _ _ _ _ _ _ _ henv, parseValue_bool]
  rw [reflectBool_of_ret _ _ _ _ _ _ _ hret, stringsToLower_FormatBool]
  cases b
  · exact ⟨rfl, rfl⟩
  · exact ⟨rfl, rfl⟩

/-- C5, amended, at a concrete input: `false` with the default `"true"` stays `false`. -/
theorem C5_bool_keeps_current_value_witness :
    (examplePlatform "linux" []).LookupEnv
        (specEnvName (examplePlatform "linux" []) (Setup "cfg" "cfgDefault" true) "debug") = none ∧
      (reflectBool (examplePlatform "linux" []) (Setup "cfg" "cfgDefault" true)
        ⟨[("cfg", "debug"), ("cfgDefault", "true")]⟩ ⟨"bool", Payload.Bool false⟩ "debug"
        "").outcome = Outcome.returned none ∧
      (reflectBool (examplePlatform "linux" []) (Setup "cfg" "cfgDefault" true)
        ⟨[("cfg", "debug"), ("cfgDefault", "true")]⟩ ⟨"bool", Payload.Bool false⟩ "debug"
        "").value = ⟨"bool", Payload.Bool false⟩ :=
  ⟨by decide,
    C5_bool_keeps_current_value (examplePlatform "linux" []) (Setup "cfg" "cfgDefault" true)
      ⟨[("cfg", "debug"), ("cfgDefault", "true")]⟩ "bool" "debug" "" false (by decide)⟩

/-- C6: when the resolved string is not empty and is not the text of a
base-10 signed 64-bit integer, `reflectInt` returns an error and the field
keeps its value; likewise `reflectFloat` when the resolved string is not
empty and the floating-point parser rejects it. -/
theorem C6_malformed_number_keeps_field (rt : Platform) (cfg : Settings) (field : StructField)
    (value : Value) (tag out s : String) :
    ((getNewValue rt cfg field value tag "int" out).ret = some s → s ≠ "" →
        specIsBase10Int64 s = false →
        (∃ err, (reflectInt rt cfg field value tag out).outcome = Outcome.returned (some err)) ∧
          (reflectInt rt cfg field value tag out).value = value) ∧
      ((getNewValue rt cfg field value tag "float64" out).ret = some s → s ≠ "" →
        (rt.ParseFloat s).2 ≠ none →
        (∃ err, (reflectFloat rt cfg field value tag out).outcome =
            Outcome.returned (some err)) ∧
          (reflectFloat rt cfg field value tag out).value = value) := by
  constructor
  · intro hret hs hbad
    have hp : (ParseInt s).2 ≠ none := by
      intro h
      rw [(ParseInt_ok_iff s).mp h] at hbad
      exact Bool.noConfusion hbad
    rw [reflectInt_of_ret _ _ _ _ _ _ _ hret, if_neg hs]
    rcases hq : ParseInt s with ⟨i, e⟩
    rw [hq] at hp
    cases e with
    | none => exact absurd rfl hp
    | some err => exact ⟨⟨err, rfl⟩, rfl⟩
  · intro hret hs hp
    rw [reflectFloat_of_ret _ _ _ _ _ _ _ hret, if_neg hs]
    rcases hq : rt.ParseFloat s with ⟨x, e⟩
    rw [hq] at hp
    cases e with
    | none => exact absurd rfl hp
    | some err => exact ⟨⟨err, rfl⟩, rfl⟩

/-- C6 at concrete inputs: the variable `PORT=abc` on an integer field
holding 7, and the malformed default `"1,5"` on a `float64` field holding
positive zero. -/
theorem C6_malformed_number_keeps_field_witness :
    (((getNewValue (examplePlatform "linux" [("PORT", "abc")]) (Setup "cfg" "cfgDefault" true)
          ⟨[("cfgDefault", "80")]⟩ ⟨"int", Payload.Int 7⟩ "port" "int" "").ret = some "abc" ∧
        "abc" ≠ "" ∧ specIsBase10Int64 "abc" = false) ∧
      (∃ err, (reflectInt (examplePlatform "linux" [("PORT", "abc")])
          (Setup "cfg" "cfgDefault" true) ⟨[("cfgDefault", "80")]⟩ ⟨"int", Payload.Int 7⟩
          "port" "").outcome = Outcome.returned (some err)) ∧
      (reflectInt (examplePlatform "linux" [("PORT", "abc")]) (Setup "cfg" "cfgDefault" true)
        ⟨[("cfgDefault", "80")]⟩ ⟨"int", Payload.Int 7⟩ "port" "").value =
        ⟨"int", Payload.Int 7⟩) ∧
    (((getNewValue (examplePlatform "linux" []) (Setup "cfg" "cfgDefault" true)
          ⟨[("cfgDefault", "1,5")]⟩ ⟨"float64", Payload.Float ⟨0⟩⟩ "scale" "float64" "").ret =
          some "1,5" ∧
        "1,5" ≠ "" ∧ ((examplePlatform "linux" []).ParseFloat "1,5").2 ≠ none) ∧
      (∃ err, (reflectFloat (examplePlatform "linux" []) (Setup "cfg" "cfgDefault" true)
          ⟨[("cfgDefault", "1,5")]⟩ ⟨"float64", Payload.Float ⟨0⟩⟩ "scale" "").outcome =
          Outcome.returned (some err)) ∧
      (reflectFloat (examplePlatform "linux" []) (Setup "cfg" "cfgDefault" true)
        ⟨[("cfgDefault", "1,5")]⟩ ⟨"float64", Payload.Float ⟨0⟩⟩ "scale" "").value =
        ⟨"float64", Payload.Float ⟨0⟩⟩) :=
  ⟨⟨by decide,
      (C6_malformed_number_keeps_field (examplePlatform "linux" [("PORT", "abc")])
        (Setup "cfg" "cfgDefault" true) ⟨[("cfgDefault", "80")]⟩ ⟨"int", Payload.Int 7⟩
        "port" "" "abc").1 (by decide) (by decide) (by decide)⟩,
    ⟨by decide,
      (C6_malformed_number_keeps_field (examplePlatform "linux" [])
        (Setup "cfg" "cfgDefault" true) ⟨[("cfgDefault", "1,5")]⟩
        ⟨"float64", Payload.Float ⟨0⟩⟩ "scale" "" "1,5").2 (by decide) (by decide)
        (by decide)⟩⟩

/-- C7: on a boolean field, for every resolved string `s`, `reflectBool`
returns no error; when `s` is not empty the field is set to `true` exactly
when the lower-cased `s` is `"true"`, `"t"` or `"1"`, and to `false`
otherwise: `"TRUE"` and `"T"` give `true`, `"yes"`, `"0"` and `"on"` give
`false`. -/
theorem C7_bool_coercion (rt : Platform) (cfg : Settings) (field : StructField)
    (typ tag out s : String) (b : Bool)
    (hret : (getNewValue rt cfg field ⟨typ, Payload.Bool b⟩ tag "bool" out).ret = some s) :
    (reflectBool rt cfg field ⟨typ, Payload.Bool b⟩ tag out).outcome = Outcome.returned none ∧
      (s ≠ "" →
        ((reflectBool rt cfg field ⟨typ, Payload.Bool b⟩ tag out).value =
            ⟨typ, Payload.Bool true⟩ ↔
          (stringsToLower rt s = "true" ∨ stringsToLower rt s = "t" ∨
            stringsToLower rt s = "1")) ∧
        ((reflectBool rt cfg field ⟨typ, Payload.Bool b⟩ tag out).value =
            ⟨typ, Payload.Bool false⟩ ↔
          ¬ (stringsToLower rt s = "true" ∨ stringsToLower rt s = "t" ∨
            stringsToLower rt s = "1"))) ∧
      (s = "TRUE" ∨ s = "T" →
        (reflectBool rt cfg field ⟨typ, Payload.Bool b⟩ tag out).value =
          ⟨typ, Payload.Bool true⟩) ∧
      (s = "yes" ∨ s = "0" ∨ s = "on" →
        (reflectBool rt cfg field ⟨typ, Payload.Bool b⟩ tag out).value =
          ⟨typ, Payload.Bool false⟩) := by
  have hre := reflectBool_of_ret _ _ _ _ _ _ _ hret
  have hval : s ≠ "" → (reflectBool rt cfg field ⟨typ, Payload.Bool b⟩ tag out).value =
      ⟨typ, Payload.Bool (decide (stringsToLower rt s = "true" ∨ stringsToLower rt s = "t" ∨
        stringsToLower rt s = "1"))⟩ := by
    intro hs
    rw [hre, if_neg hs]
    rfl
  refine ⟨?_, ?_, ?_, ?_⟩
  · rw [hre]
    split <;> rfl
  · intro hs
    rw [hval hs]
    by_cases hp : stringsToLower rt s = "true" ∨ stringsToLower rt s = "t" ∨
        stringsToLower rt s = "1"
    · simp [hp]
    · simp [hp]
  · intro h
    rcases h with rfl | rfl
    · rw [hval (by decide)]; rfl
    · rw [hval (by decide)]; rfl
  · intro h
    rcases h with rfl | rfl | rfl
    · rw [hval (by decide)]; rfl
    · rw [hval (by decide)]; rfl
    · rw [hval (by decide)]; rfl

/-- C7 at a concrete input: the variable `DEBUG=TRUE` sets a boolean field
holding `false` to `true`. -/
theorem C7_bool_coercion_witness :
    (getNewValue (examplePlatform "linux" [("DEBUG", "TRUE")]) (Setup "cfg" "cfgDefault" true)
        ⟨[("cfgDefault", "false")]⟩ ⟨"bool", Payload.Bool false⟩ "debug" "bool" "").ret =
        some "TRUE" ∧
      (reflectBool (examplePlatform "linux" [("DEBUG", "TRUE")]) (Setup "cfg" "cfgDefault" true)
        ⟨[("cfgDefault", "false")]⟩ ⟨"bool", Payload.Bool false⟩ "debug" "").outcome =
        Outcome.returned none ∧
      (reflectBool (examplePlatform "linux" [("DEBUG", "TRUE")]) (Setup "cfg" "cfgDefault" true)
        ⟨[("cfgDefault", "false")]⟩ ⟨"bool", Payload.Bool false⟩ "debug" "").value =
        ⟨"bool", Payload.Bool true⟩ :=
  have h := C7_bool_coercion (examplePlatform "linux" [("DEBUG", "TRUE")])
    (Setup "cfg" "cfgDefault" true) ⟨[("cfgDefault", "false")]⟩ "bool" "debug" "" "TRUE" false
    (by decide)
  ⟨by decide, h.1, h.2.2.1 (Or.inl rfl)⟩

/-- C8: the variable that `getNewValue` looks up is the upper-cased tag, with
every dash replaced by an underscore when the normalisation flag is on and
the dashes kept when it is off: two environments that agree on that name give
the same result, and a variable of that name is returned.  With the flag on
the tag `max-retries` names `MAX_RETRIES`, so that a variable `MAX-RETRIES`
is ignored; with the flag off it names `MAX-RETRIES`. -/
theorem C8_environment_variable_name (rt : Platform) (cfg : Settings) (field : StructField)
    (value : Value) (tag datatype out : String) :
    (∀ env1 env2 : String → Option String,
        env1 (if cfg.KebabCfgToSnakeEnv then stringsReplaceDash (stringsToUpper rt tag)
            else stringsToUpper rt tag) =
          env2 (if cfg.KebabCfgToSnakeEnv then stringsReplaceDash (stringsToUpper rt tag)
            else stringsToUpper rt tag) →
        getNewValue (rt.withEnv env1) cfg field value tag datatype out =
          getNewValue (rt.withEnv env2) cfg field value tag datatype out) ∧
      (∀ (env : String → Option String) (v : String),
        env (if cfg.KebabCfgToSnakeEnv then stringsReplaceDash (stringsToUpper rt tag)
            else stringsToUpper rt tag) = some v →
        (getNewValue (rt.withEnv env) cfg field value tag datatype out).ret = some v) ∧
      (∀ t d : String, specEnvName rt (Setup t d true) "max-retries" = "MAX_RETRIES" ∧
        specEnvName rt (Setup t d false) "max-retries" = "MAX-RETRIES") ∧
      (∀ (t d : String) (env1 env2 : String → Option String),
        env1 "MAX_RETRIES" = env2 "MAX_RETRIES" →
        getNewValue (rt.withEnv env1) (Setup t d true) field value "max-retries" datatype out =
          getNewValue (rt.withEnv env2) (Setup t d true) field value "max-retries" datatype
            out) := by
  refine ⟨?_, ?_, ?_, ?_⟩
  · intro env1 env2 h
    exact getNewValue_congr_env rt cfg field value tag datatype out env1 env2 h
  · intro env v h
    exact getNewValue_ret_of_env (rt.withEnv env) cfg field value tag datatype out v h
  · intro t d
    exact ⟨rfl, rfl⟩
  · intro t d env1 env2 h
    exact getNewValue_congr_env rt (Setup t d true) field value "max-retries" datatype out
      env1 env2 h

/-- C8 at a concrete input: with the flag on and only `MAX-RETRIES=5` set, the
tag `max-retries` resolves as with an empty environment, to the default `"3"`;
with `MAX_RETRIES=9` set as well it resolves to `"9"`. -/
theorem C8_environment_variable_name_witness :
    (lookupIn [("MAX-RETRIES", "5")] "MAX_RETRIES" = lookupIn [] "MAX_RETRIES" ∧
      getNewValue ((examplePlatform "linux" []).withEnv (lookupIn [("MAX-RETRIES", "5")]))
          (Setup "cfg" "cfgDefault" true) ⟨[("cfgDefault", "3")]⟩ ⟨"int", Payload.Int 0⟩
          "max-retries" "int" "" =
        getNewValue ((examplePlatform "linux" []).withEnv (lookupIn []))
          (Setup "cfg" "cfgDefault" true) ⟨[("cfgDefault", "3")]⟩ ⟨"int", Payload.Int 0⟩
          "max-retries" "int" "") ∧
    (getNewValue ((examplePlatform "linux" []).withEnv (lookupIn [("MAX-RETRIES", "5")]))
        (Setup "cfg" "cfgDefault" true) ⟨[("cfgDefault", "3")]⟩ ⟨"int", Payload.Int 0⟩
        "max-retries" "int" "").ret = some "3" ∧
    (lookupIn [("MAX-RETRIES", "5"), ("MAX_RETRIES", "9")] "MAX_RETRIES" = some "9" ∧
      (getNewValue ((examplePlatform "linux" []).withEnv
          (lookupIn [("MAX-RETRIES", "5"), ("MAX_RETRIES", "9")]))
        (Setup "cfg" "cfgDefault" true) ⟨[("cfgDefault", "3")]⟩ ⟨"int", Payload.Int 0⟩
        "max-retries" "int" "").ret = some "9") :=
  ⟨⟨by decide,
      (C8_environment_variable_name (examplePlatform "linux" []) (Setup "cfg" "cfgDefault" true)
        ⟨[("cfgDefault", "3")]⟩ ⟨"int", Payload.Int 0⟩ "max-retries" "int" "").1
        (lookupIn [("MAX-RETRIES", "5")]) (lookupIn []) (by decide)⟩,
    by decide,
    ⟨by decide,
      (C8_environment_variable_name (examplePlatform "linux" []) (Setup "cfg" "cfgDefault" true)
        ⟨[("cfgDefault", "3")]⟩ ⟨"int", Payload.Int 0⟩ "max-retries" "int" "").2.1
        (lookupIn [("MAX-RETRIES", "5"), ("MAX_RETRIES", "9")]) "9" (by decide)⟩⟩

/-- C9: every call of `getNewValue`, and so every call of `reflectInt`,
`reflectFloat`, `reflectString` and `reflectBool`, leaves the help buffer equal
to its earlier contents followed by the one stanza of the field, whatever the
source of the value and however the call ends; after a list of fields was
resolved the buffer is the earlier contents followed by their stanzas in the
order of resolution. -/
theorem C9_one_stanza_per_call (rt : Platform) (cfg : Settings) (out : String) :
    (∀ (field : StructField) (value : Value) (tag datatype : String),
        (getNewValue rt cfg field value tag datatype out).PrintDefaultsOutput =
          out ++ specHelpStanza rt (specEnvName rt cfg tag) datatype (field.TagGet cfg.TagDefault)) ∧
      (∀ (field : StructField) (value : Value) (tag : String),
        (reflectInt rt cfg field value tag out).PrintDefaultsOutput =
            out ++ specHelpStanza rt (specEnvName rt cfg tag) "int" (field.TagGet cfg.TagDefault) ∧
          (reflectFloat rt cfg field value tag out).PrintDefaultsOutput =
            out ++ specHelpStanza rt (specEnvName rt cfg tag) "float64" (field.TagGet cfg.TagDefault) ∧
          (reflectString rt cfg field value tag out).PrintDefaultsOutput =
            out ++ specHelpStanza rt (specEnvName rt cfg tag) "string" (field.TagGet cfg.TagDefault) ∧
          (reflectBool rt cfg field value tag out).PrintDefaultsOutput =
            out ++ specHelpStanza rt (specEnvName rt cfg tag) "bool" (field.TagGet cfg.TagDefault)) ∧
      (∀ calls : List FieldCall,
        resolveAll rt cfg calls out =
          out ++ String.join (calls.map (fun c =>
            specHelpStanza rt (specEnvName rt cfg c.tag) c.coercer.datatype
              (c.field.TagGet cfg.TagDefault))) ∧
        (calls.map (fun c =>
            specHelpStanza rt (specEnvName rt cfg c.tag) c.coercer.datatype
              (c.field.TagGet cfg.TagDefault))).length = calls.length) := by
  refine ⟨?_, ?_, ?_⟩
  · intro field value tag datatype
    exact getNewValue_buffer rt cfg field value tag datatype out
  · intro field value tag
    exact ⟨coercer_buffer Coercer.Int rt cfg field value tag out,
      coercer_buffer Coercer.Float rt cfg field value tag out,
      coercer_buffer Coercer.String rt cfg field value tag out,
      coercer_buffer Coercer.Bool rt cfg field value tag out⟩
  · intro calls
    refine ⟨?_, by simp⟩
    unfold resolveAll
    induction calls generalizing out with
    | nil =>
      apply String.ext
      simp [String.join]
    | cons c cs ih =>
      simp only [List.foldl_cons, List.map_cons]
      rw [ih, coercer_buffer, join_cons, String.append_assoc]

/-- C10: whenever the resolved string is empty, `reflectInt`, `reflectFloat`,
`reflectString` and `reflectBool` return no error and leave the field as it
was; in particular, when the environment variable is set to the empty string
the field keeps its current value and the default is not applied. -/
theorem C10_empty_string_changes_nothing (rt : Platform) (cfg : Settings)
    (field : StructField) (value : Value) (tag out : String) :
    ((getNewValue rt cfg field value tag "int" out).ret = some "" →
        (reflectInt rt cfg field value tag out).outcome = Outcome.returned none ∧
          (reflectInt rt cfg field value tag out).value = value) ∧
      ((getNewValue rt cfg field value tag "float64" out).ret = some "" →
        (reflectFloat rt cfg field value tag out).outcome = Outcome.returned none ∧
          (reflectFloat rt cfg field value tag out).value = value) ∧
      ((getNewValue rt cfg field value tag "string" out).ret = some "" →
        (reflectString rt cfg field value tag out).outcome = Outcome.returned none ∧
          (reflectString rt cfg field value tag out).value = value) ∧
      ((getNewValue rt cfg field value tag "bool" out).ret = some "" →
        (reflectBool rt cfg field value tag out).outcome = Outcome.returned none ∧
          (reflectBool rt cfg field value tag out).value = value) ∧
      (rt.LookupEnv (specEnvName rt cfg tag) = some "" →
        ((reflectInt rt cfg field value tag out).outcome = Outcome.returned none ∧
          (reflectInt rt cfg field value tag out).value = value) ∧
        ((reflectFloat rt cfg field value tag out).outcome = Outcome.returned none ∧
          (reflectFloat rt cfg field value tag out).value = value) ∧
        ((reflectString rt cfg field value tag out).outcome = Outcome.returned none ∧
          (reflectString rt cfg field value tag out).value = value) ∧
        ((reflectBool rt cfg field value tag out).outcome = Outcome.returned none ∧
          (reflectBool rt cfg field value tag out).value = value)) := by
  have hi : (getNewValue rt cfg field value tag "int" out).ret = some "" →
      (reflectInt rt cfg field value tag out).outcome = Outcome.returned none ∧
        (reflectInt rt cfg field value tag out).value = value := by
    intro h
    rw [reflectInt_of_ret _ _ _ _ _ _ _ h, if_pos rfl]
    exact ⟨rfl, rfl⟩
  have hf : (getNewValue rt cfg field value tag "float64" out).ret = some "" →
      (reflectFloat rt cfg field value tag out).outcome = Outcome.returned none ∧
        (reflectFloat rt cfg field value tag out).value = value := by
    intro h
    rw [reflectFloat_of_ret _ _ _ _ _ _ _ h, if_pos rfl]
    exact ⟨rfl, rfl⟩
  have hs : (getNewValue rt cfg field value tag "string" out).ret = some "" →
      (reflectString rt cfg field value tag out).outcome = Outcome.returned none ∧
        (reflectString rt cfg field value tag out).value = value := by
    intro h
    rw [reflectString_of_ret _ _ _ _ _ _ _ h, if_pos rfl]
    exact ⟨rfl, rfl⟩
  have hb : (getNewValue rt cfg field value tag "bool" out).ret = some "" →
      (reflectBool rt cfg field value tag out).outcome = Outcome.returned none ∧
        (reflectBool rt cfg field value tag out).value = value := by
    intro h
    rw [reflectBool_of_ret _ _ _ _ _ _ _ h, if_pos rfl]
    exact ⟨rfl, rfl⟩
  refine ⟨hi, hf, hs, hb, ?_⟩
  intro henv
  exact ⟨hi (getNewValue_ret_of_env rt cfg field value tag "int" out "" henv),
    hf (getNewValue_ret_of_env rt cfg field value tag "float64" out "" henv),
    hs (getNewValue_ret_of_env rt cfg field value tag "string" out "" henv),
    hb (getNewValue_ret_of_env rt cfg field value tag "bool" out "" henv)⟩

/-- C10 at a concrete input: with `PORT=` set to the empty string, an integer
field holding 7 with the default `"80"` keeps 7; and a string field holding
the empty string with an empty default resolves to the empty string and stays
empty. -/
theorem C10_empty_string_changes_nothing_witness :
    ((examplePlatform "linux" [("PORT", "")]).LookupEnv
          (specEnvName (examplePlatform "linux" [("PORT", "")]) (Setup "cfg" "cfgDefault" true)
            "port") = some "" ∧
      (reflectInt (examplePlatform "linux" [("PORT", "")]) (Setup "cfg" "cfgDefault" true)
        ⟨[("cfgDefault", "80")]⟩ ⟨"int", Payload.Int 7⟩ "port" "").outcome =
        Outcome.returned none ∧
      (reflectInt (examplePlatform "linux" [("PORT", "")]) (Setup "cfg" "cfgDefault" true)
        ⟨[("cfgDefault", "80")]⟩ ⟨"int", Payload.Int 7⟩ "port" "").value =
        ⟨"int", Payload.Int 7⟩) ∧
    ((getNewValue (examplePlatform "linux" []) (Setup "cfg" "cfgDefault" true) ⟨[]⟩
          ⟨"string", Payload.String ""⟩ "name" "string" "").ret = some "" ∧
      (reflectString (examplePlatform "linux" []) (Setup "cfg" "cfgDefault" true) ⟨[]⟩
        ⟨"string", Payload.String ""⟩ "name" "").outcome = Outcome.returned none ∧
      (reflectString (examplePlatform "linux" []) (Setup "cfg" "cfgDefault" true) ⟨[]⟩
        ⟨"string", Payload.String ""⟩ "name" "").value = ⟨"string", Payload.String ""⟩) :=
  ⟨⟨by decide,
      ((C10_empty_string_changes_nothing (examplePlatform "linux" [("PORT", "")])
        (Setup "cfg" "cfgDefault" true) ⟨[("cfgDefault", "80")]⟩ ⟨"int", Payload.Int 7⟩
        "port" "").2.2.2.2 (by decide)).1⟩,
    ⟨by decide,
      (C10_empty_string_changes_nothing (examplePlatform "linux" [])
        (Setup "cfg" "cfgDefault" true) ⟨[]⟩ ⟨"string", Payload.String ""⟩
        "name" "").2.2.1 (by decide)⟩⟩

/-- C11: `reflectString` and `reflectBool` never return an error, whatever the
field, the tag, the environment and the default, and on a field of their own
kind they return `nil`; `reflectInt` and `reflectFloat` return an error only
when the resolved string is not empty and the number parser rejects it, and
the error is the one of the parser. -/
theorem C11_only_number_parsing_fails (rt : Platform) (cfg : Settings) (field : StructField)
    (value : Value) (tag out : String) :
    (∀ err, (reflectString rt cfg field value tag out).outcome ≠ Outcome.returned (some err)) ∧
      (∀ err, (reflectBool rt cfg field value tag out).outcome ≠ Outcome.returned (some err)) ∧
      (∀ typ s0 : String,
        (reflectString rt cfg field ⟨typ, Payload.String s0⟩ tag out).outcome =
          Outcome.returned none) ∧
      (∀ (typ : String) (b : Bool),
        (reflectBool rt cfg field ⟨typ, Payload.Bool b⟩ tag out).outcome =
          Outcome.returned none) ∧
      (∀ err, (reflectInt rt cfg field value tag out).outcome = Outcome.returned (some err) →
        ∃ s, (getNewValue rt cfg field value tag "int" out).ret = some s ∧ s ≠ "" ∧
          (ParseInt s).2 = some err ∧ specIsBase10Int64 s = false) ∧
      (∀ err, (reflectFloat rt cfg field value tag out).outcome = Outcome.returned (some err) →
        ∃ s, (getNewValue rt cfg field value tag "float64" out).ret = some s ∧ s ≠ "" ∧
          (rt.ParseFloat s).2 = some err) := by
  refine ⟨reflectString_no_error rt cfg field value tag out,
    reflectBool_no_error rt cfg field value tag out, ?_, ?_, ?_, ?_⟩
  · intro typ s0
    obtain ⟨s, hs⟩ := getNewValue_string_some rt cfg field typ s0 tag out
    rw [reflectString_of_ret _ _ _ _ _ _ _ hs]
    split <;> rfl
  · intro typ b
    obtain ⟨s, hs⟩ := getNewValue_bool_some rt cfg field typ tag out b
    rw [reflectBool_of_ret _ _ _ _ _ _ _ hs]
    split <;> rfl
  · intro err h
    cases hr : (getNewValue rt cfg field value tag "int" out).ret with
    | none =>
      unfold reflectInt at h
      simp [hr] at h
    | some s =>
      rw [reflectInt_of_ret _ _ _ _ _ _ _ hr] at h
      by_cases hs : s = ""
      · rw [if_pos hs] at h
        simp at h
      · rw [if_neg hs] at h
        rcases hp : ParseInt s with ⟨n, e⟩
        rw [hp] at h
        cases e with
        | none =>
          dsimp only at h
          split at h <;> simp at h
        | some e =>
          have he : e = err := by simpa using h
          subst he
          refine ⟨s, rfl, hs, by rw [hp], ?_⟩
          cases hb : specIsBase10Int64 s with
          | false => rfl
          | true =>
            have := (ParseInt_ok_iff s).mpr hb
            rw [hp] at this
            simp at this
  · intro err h
    cases hr : (getNewValue rt cfg field value tag "float64" out).ret with
    | none =>
      unfold reflectFloat at h
      simp [hr] at h
    | some s =>
      rw [reflectFloat_of_ret _ _ _ _ _ _ _ hr] at h
      by_cases hs : s = ""
      · rw [if_pos hs] at h
        simp at h
      · rw [if_neg hs] at h
        rcases hp : rt.ParseFloat s with ⟨x, e⟩
        rw [hp] at h
        cases e with
        | none =>
          dsimp only at h
          split at h <;> simp at h
        | some e =>
          have he : e = err := by simpa using h
          subst he
          exact ⟨s, rfl, hs, by rw [hp]⟩

/-- C11 at a concrete input: with `PORT=abc`, `reflectInt` returns the syntax
error of the parser on the non-empty string `"abc"`, while `reflectString`
returns no error on the same variable. -/
theorem C11_only_number_parsing_fails_witness :
    (reflectInt (examplePlatform "linux" [("PORT", "abc")]) (Setup "cfg" "cfgDefault" true)
        ⟨[("cfgDefault", "80")]⟩ ⟨"int", Payload.Int 7⟩ "port" "").outcome =
        Outcome.returned (some NumError.ErrSyntax) ∧
      (∃ s, (getNewValue (examplePlatform "linux" [("PORT", "abc")])
          (Setup "cfg" "cfgDefault" true) ⟨[("cfgDefault", "80")]⟩ ⟨"int", Payload.Int 7⟩
          "port" "int" "").ret = some s ∧ s ≠ "" ∧
        (ParseInt s).2 = some NumError.ErrSyntax ∧ specIsBase10Int64 s = false) ∧
      (reflectString (examplePlatform "linux" [("PORT", "abc")]) (Setup "cfg" "cfgDefault" true)
        ⟨[("cfgDefault", "80")]⟩ ⟨"string", Payload.String "x"⟩ "port" "").outcome =
        Outcome.returned none :=
  ⟨by decide,
    (C11_only_number_parsing_fails (examplePlatform "linux" [("PORT", "abc")])
      (Setup "cfg" "cfgDefault" true) ⟨[("cfgDefault", "80")]⟩ ⟨"int", Payload.Int 7⟩
      "port" "").2.2.2.2.1 NumError.ErrSyntax (by decide),
    (C11_only_number_parsing_fails (examplePlatform "linux" [("PORT", "abc")])
      (Setup "cfg" "cfgDefault" true) ⟨[("cfgDefault", "80")]⟩ ⟨"int", Payload.Int 7⟩
      "port" "").2.2.1 "string" "x"⟩

/-- C12: for an array or a slice field the callback that `Setup` registers is
`reflectArray`, and for every field, value, tag, environment and help buffer
it returns no error, leaves the field as it was and leaves the help buffer as
it was. -/
theorem C12_array_and_slice_untouched (rt : Platform) (cfg : Settings) (field : StructField)
    (value : Value) (tag out : String) (k : Kind) (hk : k = Kind.Array ∨ k = Kind.Slice) :
    ParseMap k = reflectArray ∧
      (ParseMap k rt cfg field value tag out).outcome = Outcome.returned none ∧
      (ParseMap k rt cfg field value tag out).value = value ∧
      (ParseMap k rt cfg field value tag out).PrintDefaultsOutput = out := by
  rcases hk with rfl | rfl
  · exact ⟨rfl, rfl, rfl, rfl⟩
  · exact ⟨rfl, rfl, rfl, rfl⟩

/-- C12 at a concrete input: a slice field with `HOSTS` set in the environment
and a default in the tag keeps its contents, and the help buffer is unchanged. -/
theorem C12_array_and_slice_untouched_witness :
    (Kind.Slice = Kind.Array ∨ Kind.Slice = Kind.Slice) ∧
      ParseMap Kind.Slice (examplePlatform "linux" [("HOSTS", "a,b")])
        (Setup "cfg" "cfgDefault" true) ⟨[("cfg", "hosts"), ("cfgDefault", "x")]⟩
        ⟨"[]string", Payload.Other "[p q]"⟩ "hosts" "  $PORT int\n\n" =
        ⟨Outcome.returned none, ⟨"[]string", Payload.Other "[p q]"⟩, "  $PORT int\n\n"⟩ :=
  have h := C12_array_and_slice_untouched (examplePlatform "linux" [("HOSTS", "a,b")])
    (Setup "cfg" "cfgDefault" true) ⟨[("cfg", "hosts"), ("cfgDefault", "x")]⟩
    ⟨"[]string", Payload.Other "[p q]"⟩ "hosts" "  $PORT int\n\n" Kind.Slice (Or.inr rfl)
  ⟨Or.inr rfl, by rw [h.1]; rfl⟩

/-- C13: the current value of a boolean field always counts as present, so
with the environment variable not set `getNewValue` with the type `"bool"`
returns `"true"` for a field holding `true` and `"false"` for a field holding
`false`, for every default. -/
theorem C13_bool_always_present (rt : Platform) (cfg : Settings) (field : StructField)
    (typ tag out : String) (b : Bool)
    (henv : rt.LookupEnv (specEnvName rt cfg tag) = none) :
    parseValue rt "bool" ⟨typ, Payload.Bool b⟩ = some (if b then "true" else "false", true) ∧
      (getNewValue rt cfg field ⟨typ, Payload.Bool b⟩ tag "bool" out).ret =
        some (if b then "true" else "false") := by
  constructor
  · rfl
  · rw [getNewValue_ret_of_unset _ _ _ _ _ _ _ henv, parseValue_bool]
    rfl

/-- C13 at a concrete input: a field holding `false` with the default `"true"`
resolves to `"false"`. -/
theorem C13_bool_always_present_witness :
    (examplePlatform "linux" []).LookupEnv
        (specEnvName (examplePlatform "linux" []) (Setup "cfg" "cfgDefault" true) "debug") =
        none ∧
      (getNewValue (examplePlatform "linux" []) (Setup "cfg" "cfgDefault" true)
        ⟨[("cfg", "debug"), ("cfgDefault", "true")]⟩ ⟨"bool", Payload.Bool false⟩ "debug" "bool"
        "").ret = some "false" :=
  ⟨by decide,
    (C13_bool_always_present (examplePlatform "linux" []) (Setup "cfg" "cfgDefault" true)
      ⟨[("cfg", "debug"), ("cfgDefault", "true")]⟩ "bool" "debug" "" false (by decide)).2⟩

/-- C14: the text that `getNewValue` appends to the help buffer.  On a target
other than Windows it is two spaces, `$` and the normalised name, a space and
the declared type, a line end, and then an empty line when the default is
empty, or else a line with a tab and `(default ...)` holding the quoted
default; on Windows the name is written between two `%` instead of after `$`.
The quoted default is the default between double quotes when it consists of
printable runes other than the quote and the backslash. -/
theorem C14_stanza_shape (rt : Platform) (cfg : Settings) (field : StructField)
    (value : Value) (tag datatype out : String) :
    (rt.GOOS ≠ "windows" → field.TagGet cfg.TagDefault = "" →
        (getNewValue rt cfg field value tag datatype out).PrintDefaultsOutput.data =
          out.data ++ ([' ', ' ', '$'] ++ (specEnvName rt cfg tag).data ++ [' '] ++
            datatype.data ++ ['\n'] ++ ['\n'])) ∧
      (rt.GOOS ≠ "windows" → field.TagGet cfg.TagDefault ≠ "" →
        (getNewValue rt cfg field value tag datatype out).PrintDefaultsOutput.data =
          out.data ++ ([' ', ' ', '$'] ++ (specEnvName rt cfg tag).data ++ [' '] ++
            datatype.data ++ ['\n'] ++
            (['\t'] ++ "(default ".data ++ (Quote rt (field.TagGet cfg.TagDefault)).data ++
              [')', '\n']))) ∧
      (rt.GOOS = "windows" → field.TagGet cfg.TagDefault = "" →
        (getNewValue rt cfg field value tag datatype out).PrintDefaultsOutput.data =
          out.data ++ ([' ', ' ', '%'] ++ (specEnvName rt cfg tag).data ++ ['%', ' '] ++
            datatype.data ++ ['\n'] ++ ['\n'])) ∧
      (rt.GOOS = "windows" → field.TagGet cfg.TagDefault ≠ "" →
        (getNewValue rt cfg field value tag datatype out).PrintDefaultsOutput.data =
          out.data ++ ([' ', ' ', '%'] ++ (specEnvName rt cfg tag).data ++ ['%', ' '] ++
            datatype.data ++ ['\n'] ++
            (['\t'] ++ "(default ".data ++ (Quote rt (field.TagGet cfg.TagDefault)).data ++
              [')', '\n']))) ∧
      ((∀ c ∈ (field.TagGet cfg.TagDefault).data, IsPrint rt c = true ∧ c ≠ '"' ∧ c ≠ '\\') →
        (Quote rt (field.TagGet cfg.TagDefault)).data =
          ['"'] ++ (field.TagGet cfg.TagDefault).data ++ ['"']) := by
  rw [getNewValue_buffer]
  unfold specHelpStanza
  refine ⟨?_, ?_, ?_, ?_, ?_⟩
  · intro hg hd
    simp [hg, hd, String.data_append]
  · intro hg hd
    simp [hg, hd, String.data_append]
  · intro hg hd
    simp [hg, hd, String.data_append]
  · intro hg hd
    simp [hg, hd, String.data_append]
  · intro h
    exact Quote_plain rt _ h

/-- C14 at concrete inputs: the stanza of the tag `max-retries` with the
default `3` on Linux, and with no default on Windows. -/
theorem C14_stanza_shape_witness :
    (((examplePlatform "linux" []).GOOS ≠ "windows" ∧
        StructField.TagGet ⟨[("cfgDefault", "3")]⟩ (Setup "cfg" "cfgDefault" true).TagDefault ≠
          "") ∧
      (getNewValue (examplePlatform "linux" []) (Setup "cfg" "cfgDefault" true)
        ⟨[("cfgDefault", "3")]⟩ ⟨"int", Payload.Int 0⟩ "max-retries" "int"
        "").PrintDefaultsOutput.data =
        "".data ++ ([' ', ' ', '$'] ++ "MAX_RETRIES".data ++ [' '] ++ "int".data ++ ['\n'] ++
          (['\t'] ++ "(default ".data ++ "\"3\"".data ++ [')', '\n']))) ∧
    (((examplePlatform "windows" []).GOOS = "windows" ∧
        StructField.TagGet ⟨[]⟩ (Setup "cfg" "cfgDefault" true).TagDefault = "") ∧
      (getNewValue (examplePlatform "windows" []) (Setup "cfg" "cfgDefault" true)
        ⟨[]⟩ ⟨"int", Payload.Int 0⟩ "max-retries" "int" "").PrintDefaultsOutput.data =
        "".data ++ ([' ', ' ', '%'] ++ "MAX_RETRIES".data ++ ['%', ' '] ++ "int".data ++
          ['\n'] ++ ['\n'])) :=
  ⟨⟨by decide,
      (C14_stanza_shape (examplePlatform "linux" []) (Setup "cfg" "cfgDefault" true)
        ⟨[("cfgDefault", "3")]⟩ ⟨"int", Payload.Int 0⟩ "max-retries" "int" "").2.1
        (by decide) (by decide)⟩,
    ⟨by decide,
      (C14_stanza_shape (examplePlatform "windows" []) (Setup "cfg" "cfgDefault" true)
        ⟨[]⟩ ⟨"int", Payload.Int 0⟩ "max-retries" "int" "").2.2.1 (by decide) (by decide)⟩⟩

/-- C15: with the environment variable not set, `reflectInt` on a field that
holds a non-zero signed 64-bit integer `v` returns no error and leaves the
field equal to `v`, for every default, a malformed one included: the base-10
text of `v` parses back to `v`. -/
theorem C15_nonzero_integer_kept (rt : Platform) (cfg : Settings) (field : StructField)
    (typ tag out : String) (v : Int) (hlo : -2 ^ 63 ≤ v) (hhi : v < 2 ^ 63) (hv : v ≠ 0)
    (henv : rt.LookupEnv (specEnvName rt cfg tag) = none) :
    (reflectInt rt cfg field ⟨typ, Payload.Int v⟩ tag out).outcome = Outcome.returned none ∧
      (reflectInt rt cfg field ⟨typ, Payload.Int v⟩ tag out).value = ⟨typ, Payload.Int v⟩ ∧
      ParseInt (FormatInt v) = (v, none) := by
  have hret : (getNewValue rt cfg field ⟨typ, Payload.Int v⟩ tag "int" out).ret =
      some (FormatInt v) := by
    rw [getNewValue_ret_of_unset _ _ _ _ _ _ _ henv, parseValue_int,
      decide_eq_true (FormatInt_ne_zero v hv)]
  have hp := ParseInt_FormatInt v hlo hhi
  obtain ⟨h1, h2⟩ := (reflectInt_on_int rt cfg field typ tag out _ v hret).2.1
    (FormatInt_ne_empty v) v hp
  exact ⟨h1, h2, hp⟩

/-- C15 at a concrete input: a field holding `-15` with the malformed default
`"abc"` keeps `-15`. -/
theorem C15_nonzero_integer_kept_witness :
    (-2 ^ 63 ≤ (-15 : Int) ∧ (-15 : Int) < 2 ^ 63 ∧ (-15 : Int) ≠ 0) ∧
      (examplePlatform "linux" []).LookupEnv
        (specEnvName (examplePlatform "linux" []) (Setup "cfg" "cfgDefault" true) "offset") =
        none ∧
      (reflectInt (examplePlatform "linux" []) (Setup "cfg" "cfgDefault" true)
        ⟨[("cfg", "offset"), ("cfgDefault", "abc")]⟩ ⟨"int", Payload.Int (-15)⟩ "offset"
        "").outcome = Outcome.returned none ∧
      (reflectInt (examplePlatform "linux" []) (Setup "cfg" "cfgDefault" true)
        ⟨[("cfg", "offset"), ("cfgDefault", "abc")]⟩ ⟨"int", Payload.Int (-15)⟩ "offset"
        "").value = ⟨"int", Payload.Int (-15)⟩ :=
  have h := C15_nonzero_integer_kept (examplePlatform "linux" [])
    (Setup "cfg" "cfgDefault" true) ⟨[("cfg", "offset"), ("cfgDefault", "abc")]⟩ "int" "offset"
    "" (-15) (by decide) (by decide) (by decide) (by decide)
  ⟨by decide, by decide, h.1, h.2.1⟩

/-- C16: with the environment, the settings and the default held fixed, a
second call of `reflectInt`, `reflectString` or `reflectBool` on the field that
a first call without error left returns no error and leaves the field at the
value the first call produced; the help buffer receives one more stanza. -/
theorem C16_coercion_idempotent (rt : Platform) (cfg : Settings) (field : StructField)
    (typ tag out : String) :
    (∀ v : Int, -2 ^ 63 ≤ v → v < 2 ^ 63 →
        (reflectInt rt cfg field ⟨typ, Payload.Int v⟩ tag out).outcome = Outcome.returned none →
        (callTwice reflectInt rt cfg field ⟨typ, Payload.Int v⟩ tag out).outcome =
            Outcome.returned none ∧
          (callTwice reflectInt rt cfg field ⟨typ, Payload.Int v⟩ tag out).value =
            (reflectInt rt cfg field ⟨typ, Payload.Int v⟩ tag out).value ∧
          (callTwice reflectInt rt cfg field ⟨typ, Payload.Int v⟩ tag out).PrintDefaultsOutput =
            (reflectInt rt cfg field ⟨typ, Payload.Int v⟩ tag out).PrintDefaultsOutput ++
              specHelpStanza rt (specEnvName rt cfg tag) "int" (field.TagGet cfg.TagDefault)) ∧
      (∀ s : String,
        (reflectString rt cfg field ⟨typ, Payload.String s⟩ tag out).outcome =
          Outcome.returned none →
        (callTwice reflectString rt cfg field ⟨typ, Payload.String s⟩ tag out).outcome =
            Outcome.returned none ∧
          (callTwice reflectString rt cfg field ⟨typ, Payload.String s⟩ tag out).value =
            (reflectString rt cfg field ⟨typ, Payload.String s⟩ tag out).value ∧
          (callTwice reflectString rt cfg field ⟨typ, Payload.String s⟩ tag
              out).PrintDefaultsOutput =
            (reflectString rt cfg field ⟨typ, Payload.String s⟩ tag out).PrintDefaultsOutput ++
              specHelpStanza rt (specEnvName rt cfg tag) "string"
                (field.TagGet cfg.TagDefault)) ∧
      (∀ b : Bool,
        (reflectBool rt cfg field ⟨typ, Payload.Bool b⟩ tag out).outcome =
          Outcome.returned none →
        (callTwice reflectBool rt cfg field ⟨typ, Payload.Bool b⟩ tag out).outcome =
            Outcome.returned none ∧
          (callTwice reflectBool rt cfg field ⟨typ, Payload.Bool b⟩ tag out).value =
            (reflectBool rt cfg field ⟨typ, Payload.Bool b⟩ tag out).value ∧
          (callTwice reflectBool rt cfg field ⟨typ, Payload.Bool b⟩ tag
              out).PrintDefaultsOutput =
            (reflectBool rt cfg field ⟨typ, Payload.Bool b⟩ tag out).PrintDefaultsOutput ++
              specHelpStanza rt (specEnvName rt cfg tag) "bool"
                (field.TagGet cfg.TagDefault)) := by
  refine ⟨?_, ?_, ?_⟩
  · intro v hlo hhi h
    obtain ⟨w, hw, hall⟩ := reflectInt_stable rt cfg field typ tag out v hlo hhi h
    have hb := coercer_buffer Coercer.Int rt cfg field
      (reflectInt rt cfg field ⟨typ, Payload.Int v⟩ tag out).value tag
      (reflectInt rt cfg field ⟨typ, Payload.Int v⟩ tag out).PrintDefaultsOutput
    refine ⟨?_, ?_, hb⟩
    · unfold callTwice
      dsimp only
      rw [hw]
      exact (hall _).1
    · unfold callTwice
      dsimp only
      rw [hw]
      exact (hall _).2
  · intro s _
    obtain ⟨w, hw, hall⟩ := reflectString_stable rt cfg field typ tag out s
    have hb := coercer_buffer Coercer.String rt cfg field
      (reflectString rt cfg field ⟨typ, Payload.String s⟩ tag out).value tag
      (reflectString rt cfg field ⟨typ, Payload.String s⟩ tag out).PrintDefaultsOutput
    refine ⟨?_, ?_, hb⟩
    · unfold callTwice
      dsimp only
      rw [hw]
      exact (hall _).1
    · unfold callTwice
      dsimp only
      rw [hw]
      exact (hall _).2
  · intro b _
    obtain ⟨w, hw, hall⟩ := reflectBool_stable rt cfg field typ tag out b
    have hb := coercer_buffer Coercer.Bool rt cfg field
      (reflectBool rt cfg field ⟨typ, Payload.Bool b⟩ tag out).value tag
      (reflectBool rt cfg field ⟨typ, Payload.Bool b⟩ tag out).PrintDefaultsOutput
    refine ⟨?_, ?_, hb⟩
    · unfold callTwice
      dsimp only
      rw [hw]
      exact (hall _).1
    · unfold callTwice
      dsimp only
      rw [hw]
      exact (hall _).2

/-- C16 at a concrete input: an integer field holding 0 with the default
`"42"` is set to 42 by the first call, and the second call leaves 42. -/
theorem C16_coercion_idempotent_witness :
    ((-2 ^ 63 ≤ (0 : Int) ∧ (0 : Int) < 2 ^ 63) ∧
      (reflectInt (examplePlatform "linux" []) (Setup "cfg" "cfgDefault" true)
        ⟨[("cfgDefault", "42")]⟩ ⟨"int", Payload.Int 0⟩ "answer" "").outcome =
        Outcome.returned none ∧
      (reflectInt (examplePlatform "linux" []) (Setup "cfg" "cfgDefault" true)
        ⟨[("cfgDefault", "42")]⟩ ⟨"int", Payload.Int 0⟩ "answer" "").value =
        ⟨"int", Payload.Int 42⟩) ∧
    (callTwice reflectInt (examplePlatform "linux" []) (Setup "cfg" "cfgDefault" true)
        ⟨[("cfgDefault", "42")]⟩ ⟨"int", Payload.Int 0⟩ "answer" "").outcome =
        Outcome.returned none ∧
    (callTwice reflectInt (examplePlatform "linux" []) (Setup "cfg" "cfgDefault" true)
        ⟨[("cfgDefault", "42")]⟩ ⟨"int", Payload.Int 0⟩ "answer" "").value =
      (reflectInt (examplePlatform "linux" []) (Setup "cfg" "cfgDefault" true)
        ⟨[("cfgDefault", "42")]⟩ ⟨"int", Payload.Int 0⟩ "answer" "").value :=
  have h := (C16_coercion_idempotent (examplePlatform "linux" [])
    (Setup "cfg" "cfgDefault" true) ⟨[("cfgDefault", "42")]⟩ "int" "answer" "").1 0
    (by decide) (by decide) (by decide)
  ⟨by decide, h.1, h.2.1⟩

end goenv
